import Mathlib

/-!
Shallow embedding of the TrustForge micro-lending contract
(src/Blockchain/contracts/trustforge.sol) together with proofs of the
specification claims about it.

Modelling conventions:
* Addresses are `Nat`; mappings are functions `Nat → _` with pointwise update.
* `uint256` values are `Nat`.  Solidity 0.8 uses checked arithmetic, so a
  successful execution never wraps: addition is plain `Nat` addition, and every
  subtraction's no-underflow check appears as an explicit success condition
  (an operation returns `none` exactly when the contract would revert).
* ERC20 token transfers are external calls whose failure reverts the whole
  operation; token balances are outside the contract state modelled here, so a
  successful operation corresponds to a successful transfer.
* Reverts roll back all writes (including the `trackWalletActivity` modifier's),
  so a failing operation is modelled as `none` with no state change.
* Authorization modifiers (`onlyOwner`, `onlyAdminOrDAO`) gate who may call a
  governance function but do not affect the state transition itself; the
  governance operations below model the parameter validation and update.
-/

namespace TrustForge

/-- Solidity `1 days` in seconds. -/
def oneDay : Nat := 86400

/-- Solidity `365 days` in seconds. -/
def oneYear : Nat := 365 * 86400

def INITIAL_TRUST_SCORE : Nat := 100

def MAX_TRUST_SCORE : Nat := 1000

def MATURITY_LEVEL_1 : Nat := 7 * 86400

def MATURITY_LEVEL_2 : Nat := 30 * 86400

def MATURITY_LEVEL_3 : Nat := 90 * 86400

inductive LoanStatus where
  | ACTIVE
  | REPAID
  | DEFAULTED
  deriving DecidableEq

structure UserProfile where
  trustScore : Nat
  totalLoansTaken : Nat
  successfulRepayments : Nat
  defaults : Nat
  hasActiveLoan : Bool
  lastDefaultTime : Nat
  walletFirstSeen : Nat
  totalTransactions : Nat

structure Loan where
  borrower : Nat
  principal : Nat
  interestAmount : Nat
  totalRepayment : Nat
  startTime : Nat
  dueDate : Nat
  duration : Nat
  status : LoanStatus

structure LenderInfo where
  depositedAmount : Nat
  depositTime : Nat
  totalInterestEarned : Nat
  lastClaimTime : Nat

structure WalletMaturity where
  age : Nat
  maturityLevel : Nat
  maturityMultiplier : Nat

/-- The full contract storage (mappings, pool counters, adjustable parameters
and the `Pausable` flag). -/
structure State where
  userProfiles : Nat → UserProfile
  activeLoans : Nat → Loan
  lenders : Nat → LenderInfo
  vouches : Nat → Nat → Bool
  totalPoolLiquidity : Nat
  totalActiveLoans : Nat
  totalDefaultedAmount : Nat
  totalInterestPool : Nat
  totalLenderDeposits : Nat
  TRUST_INCREASE_PER_REPAYMENT : Nat
  TRUST_DECREASE_ON_DEFAULT : Nat
  BASE_INTEREST_RATE : Nat
  MAX_INTEREST_RATE : Nat
  MIN_LOAN_AMOUNT : Nat
  MIN_LOAN_DURATION : Nat
  MAX_LOAN_DURATION : Nat
  DEFAULT_COOLDOWN_PERIOD : Nat
  LOW_TRUST_LIMIT : Nat
  MED_TRUST_LIMIT : Nat
  HIGH_TRUST_LIMIT : Nat
  paused : Bool

def emptyProfile : UserProfile :=
  { trustScore := 0, totalLoansTaken := 0, successfulRepayments := 0,
    defaults := 0, hasActiveLoan := false, lastDefaultTime := 0,
    walletFirstSeen := 0, totalTransactions := 0 }

def emptyLoan : Loan :=
  { borrower := 0, principal := 0, interestAmount := 0, totalRepayment := 0,
    startTime := 0, dueDate := 0, duration := 0, status := LoanStatus.ACTIVE }

def emptyLender : LenderInfo :=
  { depositedAmount := 0, depositTime := 0, totalInterestEarned := 0,
    lastClaimTime := 0 }

/-- State right after the constructor: all mappings empty, all counters 0,
parameters at their declared initial values, not paused. -/
def initialState : State :=
  { userProfiles := fun _ => emptyProfile
    activeLoans := fun _ => emptyLoan
    lenders := fun _ => emptyLender
    vouches := fun _ _ => false
    totalPoolLiquidity := 0
    totalActiveLoans := 0
    totalDefaultedAmount := 0
    totalInterestPool := 0
    totalLenderDeposits := 0
    TRUST_INCREASE_PER_REPAYMENT := 50
    TRUST_DECREASE_ON_DEFAULT := 200
    BASE_INTEREST_RATE := 500
    MAX_INTEREST_RATE := 2000
    MIN_LOAN_AMOUNT := 10 ^ 16
    MIN_LOAN_DURATION := 86400
    MAX_LOAN_DURATION := 180 * 86400
    DEFAULT_COOLDOWN_PERIOD := 30 * 86400
    LOW_TRUST_LIMIT := 10 ^ 17
    MED_TRUST_LIMIT := 5 * 10 ^ 17
    HIGH_TRUST_LIMIT := 2 * 10 ^ 18
    paused := false }

def setProfile (s : State) (a : Nat) (p : UserProfile) : State :=
  { s with userProfiles := fun x => if x = a then p else s.userProfiles x }

def setLoan (s : State) (a : Nat) (l : Loan) : State :=
  { s with activeLoans := fun x => if x = a then l else s.activeLoans x }

def setLender (s : State) (a : Nat) (l : LenderInfo) : State :=
  { s with lenders := fun x => if x = a then l else s.lenders x }

def setVouch (s : State) (a b : Nat) : State :=
  { s with vouches := fun x y => if x = a ∧ y = b then true else s.vouches x y }

/-- `trackWalletActivity` modifier: record first-seen time and bump the
transaction counter for the caller. -/
def trackWalletActivity (s : State) (now sender : Nat) : State :=
  let user := s.userProfiles sender
  let user := if user.walletFirstSeen = 0 then { user with walletFirstSeen := now } else user
  setProfile s sender { user with totalTransactions := user.totalTransactions + 1 }

/-- `getWalletMaturity`.  The subtraction `block.timestamp - walletFirstSeen`
is checked in Solidity 0.8, hence the `none` branch when `now` is earlier than
the recorded first-seen time. -/
def getWalletMaturity (s : State) (now wallet : Nat) : Option WalletMaturity :=
  let user := s.userProfiles wallet
  if user.walletFirstSeen = 0 then
    some { age := 0, maturityLevel := 0, maturityMultiplier := 20 }
  else if user.walletFirstSeen ≤ now then
    let age := now - user.walletFirstSeen
    if age ≥ MATURITY_LEVEL_3 then
      some { age := age, maturityLevel := 3, maturityMultiplier := 150 }
    else if age ≥ MATURITY_LEVEL_2 then
      some { age := age, maturityLevel := 2, maturityMultiplier := 100 }
    else if age ≥ MATURITY_LEVEL_1 then
      some { age := age, maturityLevel := 1, maturityMultiplier := 50 }
    else
      some { age := age, maturityLevel := 0, maturityMultiplier := 20 }
  else none

/-- `_calculateBorrowingLimit`. -/
def calculateBorrowingLimit (s : State) (trustScore maturityMultiplier : Nat) : Nat :=
  let baseLimit :=
    if trustScore < 300 then s.LOW_TRUST_LIMIT
    else if trustScore < 600 then s.MED_TRUST_LIMIT
    else s.HIGH_TRUST_LIMIT
  baseLimit * maturityMultiplier / 100

/-- `_calculateInterestRate`. -/
def calculateInterestRate (s : State) (trustScore maturityLevel : Nat) : Nat :=
  let rate := s.BASE_INTEREST_RATE
  let rate := if trustScore < 300 then rate + 700
    else if trustScore < 600 then rate + 300
    else rate
  let rate := if maturityLevel = 0 then rate + 500
    else if maturityLevel = 1 then rate + 200
    else rate
  let rate := if 0 < s.totalPoolLiquidity then
      rate + (s.totalActiveLoans * 100 / s.totalPoolLiquidity) * 2
    else rate
  if rate > s.MAX_INTEREST_RATE then s.MAX_INTEREST_RATE else rate

/-- `_calculateInterestShare`. -/
def calculateInterestShare (s : State) (lenderAddress : Nat) : Nat :=
  let lender := s.lenders lenderAddress
  if s.totalLenderDeposits = 0 ∨ s.totalInterestPool = 0 then 0
  else lender.depositedAmount * s.totalInterestPool / s.totalLenderDeposits

/-- `_increaseTrustScore`. -/
def increaseTrustScore (s : State) (user : Nat) : State :=
  let profile := s.userProfiles user
  let increase := s.TRUST_INCREASE_PER_REPAYMENT
  let increase := if profile.successfulRepayments ≥ 5 then increase + 20 else increase
  let increase := if profile.successfulRepayments ≥ 10 then increase + 10 else increase
  if profile.trustScore + increase > MAX_TRUST_SCORE then
    setProfile s user { profile with trustScore := MAX_TRUST_SCORE }
  else
    setProfile s user { profile with trustScore := profile.trustScore + increase }

/-- `_decreaseTrustScore`. -/
def decreaseTrustScore (s : State) (user : Nat) : State :=
  let profile := s.userProfiles user
  let decrease := s.TRUST_DECREASE_ON_DEFAULT
  let decrease := if profile.defaults > 1 then decrease + 100 else decrease
  if profile.trustScore > decrease then
    setProfile s user { profile with trustScore := profile.trustScore - decrease }
  else
    setProfile s user { profile with trustScore := INITIAL_TRUST_SCORE / 2 }

/-- `depositToPool(amount)`.  Guards: not paused, `amount > 0`, token
`transferFrom` succeeds (external). -/
def depositToPool (s : State) (now sender amount : Nat) : Option State :=
  if s.paused then none else
  let s1 := trackWalletActivity s now sender
  if amount > 0 then
    let lender := s1.lenders sender
    some { setLender s1 sender
             { lender with depositedAmount := lender.depositedAmount + amount,
                           depositTime := now, lastClaimTime := now } with
           totalPoolLiquidity := s1.totalPoolLiquidity + amount,
           totalLenderDeposits := s1.totalLenderDeposits + amount }
  else none

/-- `withdrawFromPool(amount)`.  The conditions
`totalActiveLoans ≤ totalPoolLiquidity` and `amount ≤ totalLenderDeposits`
are the no-underflow checks of the two checked subtractions. -/
def withdrawFromPool (s : State) (now sender amount : Nat) : Option State :=
  if s.paused then none else
  let s1 := trackWalletActivity s now sender
  let lender := s1.lenders sender
  if amount > 0 ∧ lender.depositedAmount ≥ amount ∧
     s1.totalActiveLoans ≤ s1.totalPoolLiquidity ∧
     amount ≤ s1.totalPoolLiquidity - s1.totalActiveLoans ∧
     amount ≤ s1.totalLenderDeposits then
    some { setLender s1 sender
             { lender with depositedAmount := lender.depositedAmount - amount } with
           totalPoolLiquidity := s1.totalPoolLiquidity - amount,
           totalLenderDeposits := s1.totalLenderDeposits - amount }
  else none

/-- `claimInterest()`.  `interestShare ≤ totalInterestPool` is the
no-underflow check of the checked subtraction. -/
def claimInterest (s : State) (now sender : Nat) : Option State :=
  if s.paused then none else
  let s1 := trackWalletActivity s now sender
  let lender := s1.lenders sender
  let interestShare := calculateInterestShare s1 sender
  if lender.depositedAmount > 0 ∧ interestShare > 0 ∧
     interestShare ≤ s1.totalInterestPool then
    some { setLender s1 sender
             { lender with totalInterestEarned := lender.totalInterestEarned + interestShare,
                           lastClaimTime := now } with
           totalInterestPool := s1.totalInterestPool - interestShare }
  else none

/-- `_issueLoan`: compute rate and interest, store the loan, mark the borrower
active, and add the principal to `totalActiveLoans` (token transfer to the
borrower is external). -/
def issueLoan (s : State) (now borrower amount duration maturityLevel : Nat) : State :=
  let user := s.userProfiles borrower
  let interestRate := calculateInterestRate s user.trustScore maturityLevel
  let interestAmount := amount * interestRate * duration / (10000 * oneYear)
  let totalRepayment := amount + interestAmount
  let loan : Loan :=
    { borrower := borrower, principal := amount, interestAmount := interestAmount,
      totalRepayment := totalRepayment, startTime := now, dueDate := now + duration,
      duration := duration, status := LoanStatus.ACTIVE }
  let s2 := setLoan s borrower loan
  let s3 := setProfile s2 borrower
    { user with hasActiveLoan := true, totalLoansTaken := user.totalLoansTaken + 1 }
  { s3 with totalActiveLoans := s3.totalActiveLoans + amount }

/-- `requestLoan(amount, duration)`: lazy trust initialization, validation, and
loan issuance.  `totalActiveLoans ≤ totalPoolLiquidity` is the no-underflow
check of the available-liquidity subtraction. -/
def requestLoan (s : State) (now sender amount duration : Nat) : Option State :=
  if s.paused then none else
  let s1 := trackWalletActivity s now sender
  let user := s1.userProfiles sender
  let user := if user.trustScore = 0 then { user with trustScore := INITIAL_TRUST_SCORE } else user
  let s2 := setProfile s1 sender user
  if user.hasActiveLoan = false ∧ amount ≥ s2.MIN_LOAN_AMOUNT ∧
     duration ≥ s2.MIN_LOAN_DURATION ∧ duration ≤ s2.MAX_LOAN_DURATION ∧
     (user.defaults > 0 → now > user.lastDefaultTime + s2.DEFAULT_COOLDOWN_PERIOD) then
    match getWalletMaturity s2 now sender with
    | none => none
    | some maturity =>
      let maxLoan := calculateBorrowingLimit s2 user.trustScore maturity.maturityMultiplier
      if amount ≤ maxLoan ∧ s2.totalActiveLoans ≤ s2.totalPoolLiquidity ∧
         amount ≤ s2.totalPoolLiquidity - s2.totalActiveLoans then
        some (issueLoan s2 now sender amount duration maturity.maturityLevel)
      else none
  else none

/-- `repayLoan()`.  `principal ≤ totalActiveLoans` is the no-underflow check;
the borrower's token transfer of `totalRepayment` is external. -/
def repayLoan (s : State) (now sender : Nat) : Option State :=
  if s.paused then none else
  let s1 := trackWalletActivity s now sender
  let loan := s1.activeLoans sender
  let user := s1.userProfiles sender
  if user.hasActiveLoan = true ∧ loan.status = LoanStatus.ACTIVE ∧
     loan.principal ≤ s1.totalActiveLoans then
    let s2 := setLoan s1 sender { loan with status := LoanStatus.REPAID }
    let s3 := setProfile s2 sender
      { user with hasActiveLoan := false,
                  successfulRepayments := user.successfulRepayments + 1 }
    let s4 := { s3 with totalActiveLoans := s3.totalActiveLoans - loan.principal,
                        totalInterestPool := s3.totalInterestPool + loan.interestAmount }
    some (increaseTrustScore s4 sender)
  else none

/-- `markDefault(borrower)`: permissionless (no pause guard, no wallet
tracking); the two `≤` conditions are the no-underflow checks of the checked
subtractions on `totalActiveLoans` and `totalPoolLiquidity`. -/
def markDefault (s : State) (now borrower : Nat) : Option State :=
  let loan := s.activeLoans borrower
  let user := s.userProfiles borrower
  if user.hasActiveLoan = true ∧ loan.status = LoanStatus.ACTIVE ∧
     now > loan.dueDate ∧ loan.principal ≤ s.totalActiveLoans ∧
     loan.principal ≤ s.totalPoolLiquidity then
    let s1 := setLoan s borrower { loan with status := LoanStatus.DEFAULTED }
    let s2 := setProfile s1 borrower
      { user with hasActiveLoan := false, defaults := user.defaults + 1,
                  lastDefaultTime := now }
    let s3 := { s2 with totalActiveLoans := s2.totalActiveLoans - loan.principal,
                        totalPoolLiquidity := s2.totalPoolLiquidity - loan.principal,
                        totalDefaultedAmount := s2.totalDefaultedAmount + loan.principal }
    some (decreaseTrustScore s3 borrower)
  else none

/-- `vouchForUser(vouchee)` (note: no pause guard in the source). -/
def vouchForUser (s : State) (now sender vouchee : Nat) : Option State :=
  let s1 := trackWalletActivity s now sender
  let voucher := s1.userProfiles sender
  let voucheeProfile := s1.userProfiles vouchee
  if voucher.trustScore ≥ 500 ∧ voucher.successfulRepayments ≥ 2 ∧
     s1.vouches sender vouchee = false ∧ vouchee ≠ sender then
    let s2 := setVouch s1 sender vouchee
    if voucheeProfile.trustScore = 0 then
      some (setProfile s2 vouchee { voucheeProfile with trustScore := INITIAL_TRUST_SCORE + 50 })
    else if voucheeProfile.trustScore < 300 then
      some (setProfile s2 vouchee { voucheeProfile with trustScore := voucheeProfile.trustScore + 30 })
    else
      some s2
  else none

/-- `updateTrustParameters(inc, dec)`. -/
def updateTrustParameters (s : State) (inc dec : Nat) : Option State :=
  if 0 < inc ∧ inc ≤ 100 ∧ 0 < dec ∧ dec ≤ 500 then
    some { s with TRUST_INCREASE_PER_REPAYMENT := inc, TRUST_DECREASE_ON_DEFAULT := dec }
  else none

/-- `updateInterestRates(base, max)`. -/
def updateInterestRates (s : State) (baseRate maxRate : Nat) : Option State :=
  if baseRate < maxRate ∧ maxRate ≤ 5000 then
    some { s with BASE_INTEREST_RATE := baseRate, MAX_INTEREST_RATE := maxRate }
  else none

/-- `updateBorrowingLimits(low, med, high)`. -/
def updateBorrowingLimits (s : State) (low med high : Nat) : Option State :=
  if low < med ∧ med < high then
    some { s with LOW_TRUST_LIMIT := low, MED_TRUST_LIMIT := med, HIGH_TRUST_LIMIT := high }
  else none

/-- `updateLoanDurationLimits(min, max)`: requires `min ≥ 1 days`,
`max ≤ 365 days` and strictly `min < max`. -/
def updateLoanDurationLimits (s : State) (minDuration maxDuration : Nat) : Option State :=
  if minDuration ≥ oneDay ∧ maxDuration ≤ 365 * oneDay ∧ minDuration < maxDuration then
    some { s with MIN_LOAN_DURATION := minDuration, MAX_LOAN_DURATION := maxDuration }
  else none

/-- `updateDefaultCooldown(period)`. -/
def updateDefaultCooldown (s : State) (newPeriod : Nat) : Option State :=
  if 7 * oneDay ≤ newPeriod ∧ newPeriod ≤ 180 * oneDay then
    some { s with DEFAULT_COOLDOWN_PERIOD := newPeriod }
  else none

/-- `pause()` (OpenZeppelin `_pause` requires not paused). -/
def pauseOp (s : State) : Option State :=
  if s.paused then none else some { s with paused := true }

/-- `unpause()` (OpenZeppelin `_unpause` requires paused). -/
def unpauseOp (s : State) : Option State :=
  if s.paused then some { s with paused := false } else none

/-- One external state-mutating call, with its caller, arguments, and
`block.timestamp`. -/
inductive Op where
  | depositToPool (now sender amount : Nat)
  | withdrawFromPool (now sender amount : Nat)
  | claimInterest (now sender : Nat)
  | requestLoan (now sender amount duration : Nat)
  | repayLoan (now sender : Nat)
  | markDefault (now borrower : Nat)
  | vouchForUser (now sender vouchee : Nat)
  | updateTrustParameters (inc dec : Nat)
  | updateInterestRates (baseRate maxRate : Nat)
  | updateBorrowingLimits (low med high : Nat)
  | updateLoanDurationLimits (minDuration maxDuration : Nat)
  | updateDefaultCooldown (newPeriod : Nat)
  | pause
  | unpause

/-- Execute one operation. -/
def step (s : State) : Op → Option State
  | Op.depositToPool now sender amount => depositToPool s now sender amount
  | Op.withdrawFromPool now sender amount => withdrawFromPool s now sender amount
  | Op.claimInterest now sender => claimInterest s now sender
  | Op.requestLoan now sender amount duration => requestLoan s now sender amount duration
  | Op.repayLoan now sender => repayLoan s now sender
  | Op.markDefault now borrower => markDefault s now borrower
  | Op.vouchForUser now sender vouchee => vouchForUser s now sender vouchee
  | Op.updateTrustParameters inc dec => updateTrustParameters s inc dec
  | Op.updateInterestRates baseRate maxRate => updateInterestRates s baseRate maxRate
  | Op.updateBorrowingLimits low med high => updateBorrowingLimits s low med high
  | Op.updateLoanDurationLimits minDuration maxDuration => updateLoanDurationLimits s minDuration maxDuration
  | Op.updateDefaultCooldown newPeriod => updateDefaultCooldown s newPeriod
  | Op.pause => pauseOp s
  | Op.unpause => unpauseOp s

/-- Execute a sequence of operations; the whole sequence succeeds only if every
operation does. -/
def run (s : State) : List Op → Option State
  | [] => some s
  | op :: ops =>
    match step s op with
    | none => none
    | some s2 => run s2 ops

/-! ### Specification-side definitions (for the refinement claim about the
interest-rate computation) and concrete states used by witnesses. -/

/-- Spec wording: trust penalty of 700 bp if trust < 300, else 300 bp if
trust < 600, else 0. -/
def trustPenalty (trustScore : Nat) : Nat :=
  if trustScore < 300 then 700 else if trustScore < 600 then 300 else 0

/-- Spec wording: maturity penalty of 500 bp at tier 0, 200 bp at tier 1,
else 0. -/
def maturityPenalty (maturityLevel : Nat) : Nat :=
  if maturityLevel = 0 then 500 else if maturityLevel = 1 then 200 else 0

/-- Spec wording: whole percent of utilization, truncating, 0 when the pool
is empty. -/
def utilizationPercent (active liquidity : Nat) : Nat :=
  if liquidity = 0 then 0 else active * 100 / liquidity

/-- Spec wording for the interest rate: base plus the three penalties (2 bp
per whole percent of utilization), clamped from above at the max rate. -/
def specInterestRate (baseRate maxRate active liquidity trustScore maturityLevel : Nat) : Nat :=
  min (baseRate + trustPenalty trustScore + maturityPenalty maturityLevel +
        utilizationPercent active liquidity * 2) maxRate

/-- A borrower (address 7) holding an ACTIVE loan of principal 30, due at
time 90, in a pool with 50 deposited. -/
def wActiveProfile : UserProfile :=
  { trustScore := 150, totalLoansTaken := 1, successfulRepayments := 0,
    defaults := 0, hasActiveLoan := true, lastDefaultTime := 0,
    walletFirstSeen := 1, totalTransactions := 2 }

def wActiveLoan : Loan :=
  { borrower := 7, principal := 30, interestAmount := 5, totalRepayment := 35,
    startTime := 2, dueDate := 90, duration := 88, status := LoanStatus.ACTIVE }

def wActiveState : State :=
  { setLoan (setProfile initialState 7 wActiveProfile) 7 wActiveLoan with
    totalPoolLiquidity := 50, totalActiveLoans := 30, totalLenderDeposits := 50 }

/-- A fresh borrower (address 3, first seen at time 1, no trust score yet) in
a well-funded pool; used to exercise a successful `requestLoan`. -/
def wBorrowProfile : UserProfile :=
  { trustScore := 0, totalLoansTaken := 0, successfulRepayments := 0,
    defaults := 0, hasActiveLoan := false, lastDefaultTime := 0,
    walletFirstSeen := 1, totalTransactions := 1 }

def wRequestState : State :=
  { setProfile initialState 3 wBorrowProfile with
    totalPoolLiquidity := 10 ^ 18, totalLenderDeposits := 10 ^ 18 }

/-- `block.timestamp` of the witness loan request (wallet age 50 days − 1s,
maturity tier 2). -/
def wRequestTime : Nat := 50 * 86400

def wRequestMaturity : WalletMaturity :=
  { age := 50 * 86400 - 1, maturityLevel := 2, maturityMultiplier := 100 }

/-- A qualified voucher (address 9) and a vouchee (address 4) who has a
nonzero trust score of 150 but has never been tracked
(`walletFirstSeen = 0`). -/
def wVoucherProfile : UserProfile :=
  { trustScore := 500, totalLoansTaken := 2, successfulRepayments := 2,
    defaults := 0, hasActiveLoan := false, lastDefaultTime := 0,
    walletFirstSeen := 1, totalTransactions := 5 }

def wVoucheeProfile : UserProfile :=
  { trustScore := 150, totalLoansTaken := 0, successfulRepayments := 0,
    defaults := 0, hasActiveLoan := false, lastDefaultTime := 0,
    walletFirstSeen := 0, totalTransactions := 0 }

def wVouchState : State :=
  setProfile (setProfile initialState 9 wVoucherProfile) 4 wVoucheeProfile

/-- Operation sequence used by witnesses of the reachable-state invariants. -/
def wOps : List Op :=
  [Op.depositToPool 0 1 5, Op.pause, Op.unpause]

/-- The initial state with the pause flag set. -/
def wPausedState : State :=
  { initialState with paused := true }

/-- Like `wRequestState` but the borrower already holds a nonzero trust
score of 150. -/
def wRequestState2 : State :=
  { setProfile initialState 3 { wBorrowProfile with trustScore := 150 } with
    totalPoolLiquidity := 10 ^ 18, totalLenderDeposits := 10 ^ 18 }

/-! ### Projection lemmas for the state setters and the tracking modifier. -/

@[simp] theorem setProfile_activeLoans (s : State) (a : Nat) (p : UserProfile) :
    (setProfile s a p).activeLoans = s.activeLoans := rfl

@[simp] theorem setProfile_lenders (s : State) (a : Nat) (p : UserProfile) :
    (setProfile s a p).lenders = s.lenders := rfl

@[simp] theorem setProfile_vouches (s : State) (a : Nat) (p : UserProfile) :
    (setProfile s a p).vouches = s.vouches := rfl

@[simp] theorem setProfile_userProfiles (s : State) (a : Nat) (p : UserProfile) (u : Nat) :
    (setProfile s a p).userProfiles u = if u = a then p else s.userProfiles u := rfl

@[simp] theorem setLoan_userProfiles (s : State) (a : Nat) (l : Loan) :
    (setLoan s a l).userProfiles = s.userProfiles := rfl

@[simp] theorem setLoan_lenders (s : State) (a : Nat) (l : Loan) :
    (setLoan s a l).lenders = s.lenders := rfl

@[simp] theorem setLoan_vouches (s : State) (a : Nat) (l : Loan) :
    (setLoan s a l).vouches = s.vouches := rfl

@[simp] theorem setLoan_activeLoans (s : State) (a : Nat) (l : Loan) (u : Nat) :
    (setLoan s a l).activeLoans u = if u = a then l else s.activeLoans u := rfl

@[simp] theorem setLender_userProfiles (s : State) (a : Nat) (l : LenderInfo) :
    (setLender s a l).userProfiles = s.userProfiles := rfl

@[simp] theorem setLender_activeLoans (s : State) (a : Nat) (l : LenderInfo) :
    (setLender s a l).activeLoans = s.activeLoans := rfl

@[simp] theorem setLender_vouches (s : State) (a : Nat) (l : LenderInfo) :
    (setLender s a l).vouches = s.vouches := rfl

@[simp] theorem setLender_lenders (s : State) (a : Nat) (l : LenderInfo) (u : Nat) :
    (setLender s a l).lenders u = if u = a then l else s.lenders u := rfl

@[simp] theorem setVouch_userProfiles (s : State) (a b : Nat) :
    (setVouch s a b).userProfiles = s.userProfiles := rfl

@[simp] theorem setVouch_activeLoans (s : State) (a b : Nat) :
    (setVouch s a b).activeLoans = s.activeLoans := rfl

@[simp] theorem setVouch_lenders (s : State) (a b : Nat) :
    (setVouch s a b).lenders = s.lenders := rfl

@[simp] theorem setVouch_vouches (s : State) (a b x y : Nat) :
    (setVouch s a b).vouches x y = if x = a ∧ y = b then true else s.vouches x y := rfl

@[simp] theorem setProfile_totalPoolLiquidity (s : State) (a : Nat) (p : UserProfile) :
    (setProfile s a p).totalPoolLiquidity = s.totalPoolLiquidity := rfl

@[simp] theorem setProfile_totalActiveLoans (s : State) (a : Nat) (p : UserProfile) :
    (setProfile s a p).totalActiveLoans = s.totalActiveLoans := rfl

@[simp] theorem setProfile_totalDefaultedAmount (s : State) (a : Nat) (p : UserProfile) :
    (setProfile s a p).totalDefaultedAmount = s.totalDefaultedAmount := rfl

@[simp] theorem setProfile_totalInterestPool (s : State) (a : Nat) (p : UserProfile) :
    (setProfile s a p).totalInterestPool = s.totalInterestPool := rfl

@[simp] theorem setProfile_totalLenderDeposits (s : State) (a : Nat) (p : UserProfile) :
    (setProfile s a p).totalLenderDeposits = s.totalLenderDeposits := rfl

@[simp] theorem setProfile_paused (s : State) (a : Nat) (p : UserProfile) :
    (setProfile s a p).paused = s.paused := rfl

@[simp] theorem setLoan_totalPoolLiquidity (s : State) (a : Nat) (l : Loan) :
    (setLoan s a l).totalPoolLiquidity = s.totalPoolLiquidity := rfl

@[simp] theorem setLoan_totalActiveLoans (s : State) (a : Nat) (l : Loan) :
    (setLoan s a l).totalActiveLoans = s.totalActiveLoans := rfl

@[simp] theorem setLoan_totalDefaultedAmount (s : State) (a : Nat) (l : Loan) :
    (setLoan s a l).totalDefaultedAmount = s.totalDefaultedAmount := rfl

@[simp] theorem setLoan_totalInterestPool (s : State) (a : Nat) (l : Loan) :
    (setLoan s a l).totalInterestPool = s.totalInterestPool := rfl

@[simp] theorem setLoan_totalLenderDeposits (s : State) (a : Nat) (l : Loan) :
    (setLoan s a l).totalLenderDeposits = s.totalLenderDeposits := rfl

@[simp] theorem setLoan_paused (s : State) (a : Nat) (l : Loan) :
    (setLoan s a l).paused = s.paused := rfl

@[simp] theorem setLender_totalPoolLiquidity (s : State) (a : Nat) (l : LenderInfo) :
    (setLender s a l).totalPoolLiquidity = s.totalPoolLiquidity := rfl

@[simp] theorem setLender_totalActiveLoans (s : State) (a : Nat) (l : LenderInfo) :
    (setLender s a l).totalActiveLoans = s.totalActiveLoans := rfl

@[simp] theorem setLender_totalDefaultedAmount (s : State) (a : Nat) (l : LenderInfo) :
    (setLender s a l).totalDefaultedAmount = s.totalDefaultedAmount := rfl

@[simp] theorem setLender_totalInterestPool (s : State) (a : Nat) (l : LenderInfo) :
    (setLender s a l).totalInterestPool = s.totalInterestPool := rfl

@[simp] theorem setLender_totalLenderDeposits (s : State) (a : Nat) (l : LenderInfo) :
    (setLender s a l).totalLenderDeposits = s.totalLenderDeposits := rfl

@[simp] theorem setLender_paused (s : State) (a : Nat) (l : LenderInfo) :
    (setLender s a l).paused = s.paused := rfl

@[simp] theorem setVouch_totalPoolLiquidity (s : State) (a b : Nat) :
    (setVouch s a b).totalPoolLiquidity = s.totalPoolLiquidity := rfl

@[simp] theorem setVouch_totalActiveLoans (s : State) (a b : Nat) :
    (setVouch s a b).totalActiveLoans = s.totalActiveLoans := rfl

@[simp] theorem setVouch_totalDefaultedAmount (s : State) (a b : Nat) :
    (setVouch s a b).totalDefaultedAmount = s.totalDefaultedAmount := rfl

@[simp] theorem setVouch_totalInterestPool (s : State) (a b : Nat) :
    (setVouch s a b).totalInterestPool = s.totalInterestPool := rfl

@[simp] theorem setVouch_totalLenderDeposits (s : State) (a b : Nat) :
    (setVouch s a b).totalLenderDeposits = s.totalLenderDeposits := rfl

@[simp] theorem setVouch_paused (s : State) (a b : Nat) :
    (setVouch s a b).paused = s.paused := rfl

@[simp] theorem track_activeLoans (s : State) (now a : Nat) :
    (trackWalletActivity s now a).activeLoans = s.activeLoans := rfl

@[simp] theorem track_lenders (s : State) (now a : Nat) :
    (trackWalletActivity s now a).lenders = s.lenders := rfl

@[simp] theorem track_vouches (s : State) (now a : Nat) :
    (trackWalletActivity s now a).vouches = s.vouches := rfl

@[simp] theorem track_totalPoolLiquidity (s : State) (now a : Nat) :
    (trackWalletActivity s now a).totalPoolLiquidity = s.totalPoolLiquidity := rfl

@[simp] theorem track_totalActiveLoans (s : State) (now a : Nat) :
    (trackWalletActivity s now a).totalActiveLoans = s.totalActiveLoans := rfl

@[simp] theorem track_totalDefaultedAmount (s : State) (now a : Nat) :
    (trackWalletActivity s now a).totalDefaultedAmount = s.totalDefaultedAmount := rfl

@[simp] theorem track_totalInterestPool (s : State) (now a : Nat) :
    (trackWalletActivity s now a).totalInterestPool = s.totalInterestPool := rfl

@[simp] theorem track_totalLenderDeposits (s : State) (now a : Nat) :
    (trackWalletActivity s now a).totalLenderDeposits = s.totalLenderDeposits := rfl

@[simp] theorem track_paused (s : State) (now a : Nat) :
    (trackWalletActivity s now a).paused = s.paused := rfl

@[simp] theorem track_trustScore (s : State) (now a u : Nat) :
    ((trackWalletActivity s now a).userProfiles u).trustScore =
      (s.userProfiles u).trustScore := by
  unfold trackWalletActivity
  by_cases hu : u = a
  · subst hu
    rw [setProfile_userProfiles, if_pos rfl]
    by_cases hw : (s.userProfiles u).walletFirstSeen = 0 <;> simp [hw]
  · rw [setProfile_userProfiles, if_neg hu]

@[simp] theorem track_hasActiveLoan (s : State) (now a u : Nat) :
    ((trackWalletActivity s now a).userProfiles u).hasActiveLoan =
      (s.userProfiles u).hasActiveLoan := by
  unfold trackWalletActivity
  by_cases hu : u = a
  · subst hu
    rw [setProfile_userProfiles, if_pos rfl]
    by_cases hw : (s.userProfiles u).walletFirstSeen = 0 <;> simp [hw]
  · rw [setProfile_userProfiles, if_neg hu]

@[simp] theorem track_defaults (s : State) (now a u : Nat) :
    ((trackWalletActivity s now a).userProfiles u).defaults =
      (s.userProfiles u).defaults := by
  unfold trackWalletActivity
  by_cases hu : u = a
  · subst hu
    rw [setProfile_userProfiles, if_pos rfl]
    by_cases hw : (s.userProfiles u).walletFirstSeen = 0 <;> simp [hw]
  · rw [setProfile_userProfiles, if_neg hu]

@[simp] theorem track_successfulRepayments (s : State) (now a u : Nat) :
    ((trackWalletActivity s now a).userProfiles u).successfulRepayments =
      (s.userProfiles u).successfulRepayments := by
  unfold trackWalletActivity
  by_cases hu : u = a
  · subst hu
    rw [setProfile_userProfiles, if_pos rfl]
    by_cases hw : (s.userProfiles u).walletFirstSeen = 0 <;> simp [hw]
  · rw [setProfile_userProfiles, if_neg hu]

@[simp] theorem track_lastDefaultTime (s : State) (now a u : Nat) :
    ((trackWalletActivity s now a).userProfiles u).lastDefaultTime =
      (s.userProfiles u).lastDefaultTime := by
  unfold trackWalletActivity
  by_cases hu : u = a
  · subst hu
    rw [setProfile_userProfiles, if_pos rfl]
    by_cases hw : (s.userProfiles u).walletFirstSeen = 0 <;> simp [hw]
  · rw [setProfile_userProfiles, if_neg hu]

@[simp] theorem track_params (s : State) (now a : Nat) :
    (trackWalletActivity s now a).TRUST_INCREASE_PER_REPAYMENT = s.TRUST_INCREASE_PER_REPAYMENT ∧
    (trackWalletActivity s now a).TRUST_DECREASE_ON_DEFAULT = s.TRUST_DECREASE_ON_DEFAULT ∧
    (trackWalletActivity s now a).BASE_INTEREST_RATE = s.BASE_INTEREST_RATE ∧
    (trackWalletActivity s now a).MAX_INTEREST_RATE = s.MAX_INTEREST_RATE ∧
    (trackWalletActivity s now a).MIN_LOAN_AMOUNT = s.MIN_LOAN_AMOUNT ∧
    (trackWalletActivity s now a).MIN_LOAN_DURATION = s.MIN_LOAN_DURATION ∧
    (trackWalletActivity s now a).MAX_LOAN_DURATION = s.MAX_LOAN_DURATION ∧
    (trackWalletActivity s now a).DEFAULT_COOLDOWN_PERIOD = s.DEFAULT_COOLDOWN_PERIOD ∧
    (trackWalletActivity s now a).LOW_TRUST_LIMIT = s.LOW_TRUST_LIMIT ∧
    (trackWalletActivity s now a).MED_TRUST_LIMIT = s.MED_TRUST_LIMIT ∧
    (trackWalletActivity s now a).HIGH_TRUST_LIMIT = s.HIGH_TRUST_LIMIT :=
  ⟨rfl, rfl, rfl, rfl, rfl, rfl, rfl, rfl, rfl, rfl, rfl⟩

/-- The wallet-maturity computation is unchanged by the tracking modifier at
the caller: a fresh wallet gets first-seen time `now`, whose age is 0, the
same tier-0 result as the untracked branch. -/
theorem getWalletMaturity_track (s : State) (now a : Nat) :
    getWalletMaturity (trackWalletActivity s now a) now a = getWalletMaturity s now a := by
  unfold getWalletMaturity trackWalletActivity
  rw [setProfile_userProfiles, if_pos rfl]
  by_cases hw : (s.userProfiles a).walletFirstSeen = 0
  · simp only [hw, if_true, if_pos]
    simp [MATURITY_LEVEL_1, MATURITY_LEVEL_2, MATURITY_LEVEL_3]
  · simp [hw]

@[simp] theorem setProfile_self (s : State) (a : Nat) (p : UserProfile) :
    (setProfile s a p).userProfiles a = p := by
  rw [setProfile_userProfiles, if_pos rfl]

@[simp] theorem setLoan_self (s : State) (a : Nat) (l : Loan) :
    (setLoan s a l).activeLoans a = l := by
  rw [setLoan_activeLoans, if_pos rfl]

@[simp] theorem setLender_self (s : State) (a : Nat) (l : LenderInfo) :
    (setLender s a l).lenders a = l := by
  rw [setLender_lenders, if_pos rfl]

/-- Replacing a user's profile by one with the same first-seen time does not
change the maturity computation. -/
theorem getWalletMaturity_setProfile (s : State) (now a : Nat) (p : UserProfile)
    (hp : p.walletFirstSeen = (s.userProfiles a).walletFirstSeen) :
    getWalletMaturity (setProfile s a p) now a = getWalletMaturity s now a := by
  simp only [getWalletMaturity, setProfile_self]
  rw [hp]

@[simp] theorem setProfile_MIN_LOAN_AMOUNT (s : State) (a : Nat) (p : UserProfile) :
    (setProfile s a p).MIN_LOAN_AMOUNT = s.MIN_LOAN_AMOUNT := rfl

@[simp] theorem setProfile_MIN_LOAN_DURATION (s : State) (a : Nat) (p : UserProfile) :
    (setProfile s a p).MIN_LOAN_DURATION = s.MIN_LOAN_DURATION := rfl

@[simp] theorem setProfile_MAX_LOAN_DURATION (s : State) (a : Nat) (p : UserProfile) :
    (setProfile s a p).MAX_LOAN_DURATION = s.MAX_LOAN_DURATION := rfl

@[simp] theorem setProfile_DEFAULT_COOLDOWN_PERIOD (s : State) (a : Nat) (p : UserProfile) :
    (setProfile s a p).DEFAULT_COOLDOWN_PERIOD = s.DEFAULT_COOLDOWN_PERIOD := rfl

@[simp] theorem setProfile_TRUST_INCREASE (s : State) (a : Nat) (p : UserProfile) :
    (setProfile s a p).TRUST_INCREASE_PER_REPAYMENT = s.TRUST_INCREASE_PER_REPAYMENT := rfl

@[simp] theorem setProfile_TRUST_DECREASE (s : State) (a : Nat) (p : UserProfile) :
    (setProfile s a p).TRUST_DECREASE_ON_DEFAULT = s.TRUST_DECREASE_ON_DEFAULT := rfl

@[simp] theorem setLoan_TRUST_INCREASE (s : State) (a : Nat) (l : Loan) :
    (setLoan s a l).TRUST_INCREASE_PER_REPAYMENT = s.TRUST_INCREASE_PER_REPAYMENT := rfl

@[simp] theorem setLoan_TRUST_DECREASE (s : State) (a : Nat) (l : Loan) :
    (setLoan s a l).TRUST_DECREASE_ON_DEFAULT = s.TRUST_DECREASE_ON_DEFAULT := rfl

@[simp] theorem track_MIN_LOAN_AMOUNT (s : State) (now a : Nat) :
    (trackWalletActivity s now a).MIN_LOAN_AMOUNT = s.MIN_LOAN_AMOUNT := rfl

@[simp] theorem track_MIN_LOAN_DURATION (s : State) (now a : Nat) :
    (trackWalletActivity s now a).MIN_LOAN_DURATION = s.MIN_LOAN_DURATION := rfl

@[simp] theorem track_MAX_LOAN_DURATION (s : State) (now a : Nat) :
    (trackWalletActivity s now a).MAX_LOAN_DURATION = s.MAX_LOAN_DURATION := rfl

@[simp] theorem track_DEFAULT_COOLDOWN_PERIOD (s : State) (now a : Nat) :
    (trackWalletActivity s now a).DEFAULT_COOLDOWN_PERIOD = s.DEFAULT_COOLDOWN_PERIOD := rfl

@[simp] theorem track_TRUST_INCREASE (s : State) (now a : Nat) :
    (trackWalletActivity s now a).TRUST_INCREASE_PER_REPAYMENT = s.TRUST_INCREASE_PER_REPAYMENT := rfl

@[simp] theorem track_TRUST_DECREASE (s : State) (now a : Nat) :
    (trackWalletActivity s now a).TRUST_DECREASE_ON_DEFAULT = s.TRUST_DECREASE_ON_DEFAULT := rfl

/-- The interest-rate computation only reads scalar fields, which `setProfile`
and tracking preserve. -/
@[simp] theorem calculateInterestRate_setProfile (s : State) (a : Nat) (p : UserProfile) (t m : Nat) :
    calculateInterestRate (setProfile s a p) t m = calculateInterestRate s t m := rfl

@[simp] theorem calculateInterestRate_track (s : State) (now a t m : Nat) :
    calculateInterestRate (trackWalletActivity s now a) t m = calculateInterestRate s t m := rfl

@[simp] theorem calculateBorrowingLimit_setProfile (s : State) (a : Nat) (p : UserProfile) (t m : Nat) :
    calculateBorrowingLimit (setProfile s a p) t m = calculateBorrowingLimit s t m := rfl

@[simp] theorem calculateBorrowingLimit_track (s : State) (now a t m : Nat) :
    calculateBorrowingLimit (trackWalletActivity s now a) t m = calculateBorrowingLimit s t m := rfl

@[simp] theorem calculateInterestShare_track (s : State) (now a b : Nat) :
    calculateInterestShare (trackWalletActivity s now a) b = calculateInterestShare s b := rfl

/-- `increaseTrustScore` leaves every scalar field and every other user
untouched. -/
theorem increaseTrustScore_other (s : State) (a u : Nat) (hu : u ≠ a) :
    (increaseTrustScore s a).userProfiles u = s.userProfiles u := by
  simp only [increaseTrustScore]
  split_ifs <;> rw [setProfile_userProfiles, if_neg hu]

/-- Coarse characterization of `increaseTrustScore` at the updated user: the
new score is either the clamp value or a bounded increase. -/
theorem increaseTrustScore_cases (s : State) (a : Nat) :
    ((increaseTrustScore s a).userProfiles a).trustScore = MAX_TRUST_SCORE ∨
    ((s.userProfiles a).trustScore ≤ ((increaseTrustScore s a).userProfiles a).trustScore ∧
      ((increaseTrustScore s a).userProfiles a).trustScore ≤ MAX_TRUST_SCORE) := by
  simp only [increaseTrustScore, MAX_TRUST_SCORE]
  split_ifs <;> simp [setProfile_self] <;> omega

theorem decreaseTrustScore_other (s : State) (a u : Nat) (hu : u ≠ a) :
    (decreaseTrustScore s a).userProfiles u = s.userProfiles u := by
  simp only [decreaseTrustScore]
  split_ifs <;> rw [setProfile_userProfiles, if_neg hu]

/-- Exact characterization of `decreaseTrustScore` at the updated user:
penalty `TRUST_DECREASE_ON_DEFAULT`, plus 100 when `defaults > 1`; subtract
when the score exceeds the penalty, otherwise floor at
`INITIAL_TRUST_SCORE / 2`. -/
theorem decreaseTrustScore_eq (s : State) (a : Nat) :
    ((decreaseTrustScore s a).userProfiles a).trustScore =
      (if (s.userProfiles a).trustScore >
            s.TRUST_DECREASE_ON_DEFAULT + (if (s.userProfiles a).defaults > 1 then 100 else 0)
        then (s.userProfiles a).trustScore -
            (s.TRUST_DECREASE_ON_DEFAULT + (if (s.userProfiles a).defaults > 1 then 100 else 0))
        else INITIAL_TRUST_SCORE / 2) := by
  simp only [decreaseTrustScore]
  split_ifs <;> simp only [setProfile_self, INITIAL_TRUST_SCORE] <;> omega

@[simp] theorem increaseTrustScore_scalars (s : State) (a : Nat) :
    (increaseTrustScore s a).totalPoolLiquidity = s.totalPoolLiquidity ∧
    (increaseTrustScore s a).totalActiveLoans = s.totalActiveLoans ∧
    (increaseTrustScore s a).totalDefaultedAmount = s.totalDefaultedAmount ∧
    (increaseTrustScore s a).totalInterestPool = s.totalInterestPool ∧
    (increaseTrustScore s a).totalLenderDeposits = s.totalLenderDeposits ∧
    (increaseTrustScore s a).activeLoans = s.activeLoans ∧
    (increaseTrustScore s a).lenders = s.lenders ∧
    (increaseTrustScore s a).vouches = s.vouches ∧
    (increaseTrustScore s a).paused = s.paused := by
  simp only [increaseTrustScore]
  split_ifs <;> exact ⟨rfl, rfl, rfl, rfl, rfl, rfl, rfl, rfl, rfl⟩

@[simp] theorem decreaseTrustScore_scalars (s : State) (a : Nat) :
    (decreaseTrustScore s a).totalPoolLiquidity = s.totalPoolLiquidity ∧
    (decreaseTrustScore s a).totalActiveLoans = s.totalActiveLoans ∧
    (decreaseTrustScore s a).totalDefaultedAmount = s.totalDefaultedAmount ∧
    (decreaseTrustScore s a).totalInterestPool = s.totalInterestPool ∧
    (decreaseTrustScore s a).totalLenderDeposits = s.totalLenderDeposits ∧
    (decreaseTrustScore s a).activeLoans = s.activeLoans ∧
    (decreaseTrustScore s a).lenders = s.lenders ∧
    (decreaseTrustScore s a).vouches = s.vouches ∧
    (decreaseTrustScore s a).paused = s.paused := by
  simp only [decreaseTrustScore]
  split_ifs <;> exact ⟨rfl, rfl, rfl, rfl, rfl, rfl, rfl, rfl, rfl⟩

/-! ### Per-operation characterization lemmas: what a successful call does to
the pool counters and to trust scores. -/

theorem depositToPool_some (s : State) (now sender amount : Nat) (s' : State)
    (h : depositToPool s now sender amount = some s') :
    s'.totalPoolLiquidity = s.totalPoolLiquidity + amount ∧
    s'.totalLenderDeposits = s.totalLenderDeposits + amount ∧
    s'.totalDefaultedAmount = s.totalDefaultedAmount ∧
    s'.totalActiveLoans = s.totalActiveLoans ∧
    s'.totalInterestPool = s.totalInterestPool ∧
    ∀ u, (s'.userProfiles u).trustScore = (s.userProfiles u).trustScore := by
  by_cases hp : s.paused
  · simp [depositToPool, hp] at h
  · by_cases ha : amount > 0
    · simp [depositToPool, hp, ha] at h
      subst h
      refine ⟨rfl, rfl, rfl, rfl, rfl, fun u => ?_⟩
      simp
    · simp [depositToPool, hp, ha] at h

theorem withdrawFromPool_some (s : State) (now sender amount : Nat) (s' : State)
    (h : withdrawFromPool s now sender amount = some s') :
    amount ≤ s.totalPoolLiquidity ∧ amount ≤ s.totalLenderDeposits ∧
    s'.totalPoolLiquidity = s.totalPoolLiquidity - amount ∧
    s'.totalLenderDeposits = s.totalLenderDeposits - amount ∧
    s'.totalDefaultedAmount = s.totalDefaultedAmount ∧
    s'.totalActiveLoans = s.totalActiveLoans ∧
    s'.totalInterestPool = s.totalInterestPool ∧
    ∀ u, (s'.userProfiles u).trustScore = (s.userProfiles u).trustScore := by
  by_cases hp : s.paused
  · simp [withdrawFromPool, hp] at h
  · by_cases hc : amount > 0 ∧ (s.lenders sender).depositedAmount ≥ amount ∧
        s.totalActiveLoans ≤ s.totalPoolLiquidity ∧
        amount ≤ s.totalPoolLiquidity - s.totalActiveLoans ∧
        amount ≤ s.totalLenderDeposits
    · simp [withdrawFromPool, hp, hc] at h
      subst h
      refine ⟨by omega, hc.2.2.2.2, rfl, rfl, rfl, rfl, rfl, fun u => ?_⟩
      simp
    · simp [withdrawFromPool, hp, hc] at h

theorem claimInterest_some (s : State) (now sender : Nat) (s' : State)
    (h : claimInterest s now sender = some s') :
    calculateInterestShare s sender ≤ s.totalInterestPool ∧
    s'.totalInterestPool = s.totalInterestPool - calculateInterestShare s sender ∧
    s'.totalPoolLiquidity = s.totalPoolLiquidity ∧
    s'.totalLenderDeposits = s.totalLenderDeposits ∧
    s'.totalDefaultedAmount = s.totalDefaultedAmount ∧
    s'.totalActiveLoans = s.totalActiveLoans ∧
    ∀ u, (s'.userProfiles u).trustScore = (s.userProfiles u).trustScore := by
  by_cases hp : s.paused
  · simp [claimInterest, hp] at h
  · by_cases hc : (s.lenders sender).depositedAmount > 0 ∧
        calculateInterestShare s sender > 0 ∧
        calculateInterestShare s sender ≤ s.totalInterestPool
    · simp [claimInterest, hp, hc] at h
      subst h
      refine ⟨hc.2.2, rfl, rfl, rfl, rfl, rfl, fun u => ?_⟩
      simp
    · simp [claimInterest, hp, hc] at h

theorem issueLoan_scalars (s : State) (now b amount dur ml : Nat) :
    (issueLoan s now b amount dur ml).totalActiveLoans = s.totalActiveLoans + amount ∧
    (issueLoan s now b amount dur ml).totalPoolLiquidity = s.totalPoolLiquidity ∧
    (issueLoan s now b amount dur ml).totalDefaultedAmount = s.totalDefaultedAmount ∧
    (issueLoan s now b amount dur ml).totalInterestPool = s.totalInterestPool ∧
    (issueLoan s now b amount dur ml).totalLenderDeposits = s.totalLenderDeposits ∧
    ∀ u, ((issueLoan s now b amount dur ml).userProfiles u).trustScore =
      (s.userProfiles u).trustScore := by
  simp only [issueLoan]
  refine ⟨rfl, rfl, rfl, rfl, rfl, fun u => ?_⟩
  by_cases hu : u = b
  · subst hu; simp
  · simp [hu]

theorem issueLoan_loan (s : State) (now b amount dur ml : Nat) :
    (issueLoan s now b amount dur ml).activeLoans b =
      { borrower := b, principal := amount,
        interestAmount := amount * calculateInterestRate s (s.userProfiles b).trustScore ml *
          dur / (10000 * oneYear),
        totalRepayment := amount + amount * calculateInterestRate s (s.userProfiles b).trustScore ml *
          dur / (10000 * oneYear),
        startTime := now, dueDate := now + dur, duration := dur,
        status := LoanStatus.ACTIVE } := by
  simp only [issueLoan]
  simp

theorem requestLoan_some (s : State) (now sender amount duration : Nat) (s' : State)
    (h : requestLoan s now sender amount duration = some s') :
    s'.totalActiveLoans = s.totalActiveLoans + amount ∧
    s'.totalPoolLiquidity = s.totalPoolLiquidity ∧
    s'.totalDefaultedAmount = s.totalDefaultedAmount ∧
    s'.totalInterestPool = s.totalInterestPool ∧
    s'.totalLenderDeposits = s.totalLenderDeposits ∧
    (∀ u, (s'.userProfiles u).trustScore = (s.userProfiles u).trustScore ∨
      ((s.userProfiles u).trustScore = 0 ∧
        (s'.userProfiles u).trustScore = INITIAL_TRUST_SCORE)) ∧
    ∀ mat, getWalletMaturity s now sender = some mat →
      (s'.activeLoans sender).interestAmount =
        amount * calculateInterestRate s
          (if (s.userProfiles sender).trustScore = 0 then INITIAL_TRUST_SCORE
            else (s.userProfiles sender).trustScore) mat.maturityLevel * duration /
          (10000 * oneYear) ∧
      (s'.activeLoans sender).totalRepayment =
        amount + (s'.activeLoans sender).interestAmount ∧
      (s'.activeLoans sender).status = LoanStatus.ACTIVE := by
  by_cases hp : s.paused
  · simp [requestLoan, hp] at h
  · by_cases ht : (s.userProfiles sender).trustScore = 0
    · rcases hm0 : getWalletMaturity s now sender with _ | mat0
      · simp [requestLoan, hp, ht, hm0, getWalletMaturity_setProfile,
          getWalletMaturity_track] at h
      · by_cases hg : (s.userProfiles sender).hasActiveLoan = false ∧
            amount ≥ s.MIN_LOAN_AMOUNT ∧ duration ≥ s.MIN_LOAN_DURATION ∧
            duration ≤ s.MAX_LOAN_DURATION ∧
            ((s.userProfiles sender).defaults > 0 →
              now > (s.userProfiles sender).lastDefaultTime + s.DEFAULT_COOLDOWN_PERIOD)
        · by_cases hl : amount ≤ calculateBorrowingLimit s INITIAL_TRUST_SCORE
              mat0.maturityMultiplier ∧
              s.totalActiveLoans ≤ s.totalPoolLiquidity ∧
              amount ≤ s.totalPoolLiquidity - s.totalActiveLoans
          · simp [requestLoan, hp, ht, hm0, hg, hl, getWalletMaturity_setProfile,
              getWalletMaturity_track] at h
            obtain ⟨-, h⟩ := h
            subst h
            obtain ⟨e1, e2, e3, e4, e5, etrust⟩ := issueLoan_scalars
              _ now sender amount duration mat0.maturityLevel
            refine ⟨?_, ?_, ?_, ?_, ?_, fun u => ?_, fun mat hmat => ?_⟩
            · rw [e1]; simp
            · rw [e2]; simp
            · rw [e3]; simp
            · rw [e4]; simp
            · rw [e5]; simp
            · rw [etrust u]
              by_cases hu : u = sender
              · subst hu
                right
                exact ⟨ht, by simp⟩
              · left
                simp [hu]
            · injection hmat with hmat
              subst hmat
              rw [issueLoan_loan]
              simp [ht]
          · simp [requestLoan, hp, ht, hm0, hg, hl, getWalletMaturity_setProfile,
              getWalletMaturity_track] at h
        · simp [requestLoan, hp, ht, hg, hm0, getWalletMaturity_setProfile,
            getWalletMaturity_track] at h
    · rcases hm0 : getWalletMaturity s now sender with _ | mat0
      · simp [requestLoan, hp, ht, hm0, getWalletMaturity_setProfile,
          getWalletMaturity_track] at h
      · by_cases hg : (s.userProfiles sender).hasActiveLoan = false ∧
            amount ≥ s.MIN_LOAN_AMOUNT ∧ duration ≥ s.MIN_LOAN_DURATION ∧
            duration ≤ s.MAX_LOAN_DURATION ∧
            ((s.userProfiles sender).defaults > 0 →
              now > (s.userProfiles sender).lastDefaultTime + s.DEFAULT_COOLDOWN_PERIOD)
        · by_cases hl : amount ≤ calculateBorrowingLimit s
              (s.userProfiles sender).trustScore mat0.maturityMultiplier ∧
              s.totalActiveLoans ≤ s.totalPoolLiquidity ∧
              amount ≤ s.totalPoolLiquidity - s.totalActiveLoans
          · simp [requestLoan, hp, ht, hm0, hg, hl, getWalletMaturity_setProfile,
              getWalletMaturity_track] at h
            obtain ⟨-, h⟩ := h
            subst h
            obtain ⟨e1, e2, e3, e4, e5, etrust⟩ := issueLoan_scalars
              _ now sender amount duration mat0.maturityLevel
            refine ⟨?_, ?_, ?_, ?_, ?_, fun u => ?_, fun mat hmat => ?_⟩
            · rw [e1]; simp
            · rw [e2]; simp
            · rw [e3]; simp
            · rw [e4]; simp
            · rw [e5]; simp
            · rw [etrust u]
              left
              by_cases hu : u = sender
              · subst hu; simp
              · simp [hu]
            · injection hmat with hmat
              subst hmat
              rw [issueLoan_loan]
              simp [ht]
          · simp [requestLoan, hp, ht, hm0, hg, hl, getWalletMaturity_setProfile,
              getWalletMaturity_track] at h
        · simp [requestLoan, hp, ht, hg, hm0, getWalletMaturity_setProfile,
            getWalletMaturity_track] at h

/-- Trust-score effect of the final `_increaseTrustScore` call of a repayment,
stated against an outer state whose trust scores agree with the prepared
state's. -/
theorem increase_core (s0 X : State) (a : Nat) (s' : State)
    (h : increaseTrustScore X a = s')
    (hXu : ∀ v, (X.userProfiles v).trustScore = (s0.userProfiles v).trustScore)
    (u : Nat) :
    (s'.userProfiles u).trustScore = (s0.userProfiles u).trustScore ∨
    (s'.userProfiles u).trustScore = MAX_TRUST_SCORE ∨
    ((s0.userProfiles u).trustScore ≤ (s'.userProfiles u).trustScore ∧
      (s'.userProfiles u).trustScore ≤ MAX_TRUST_SCORE) := by
  subst h
  by_cases hu : u = a
  · subst hu
    rcases increaseTrustScore_cases X u with hcase | hcase
    · right; left; exact hcase
    · right; right
      rw [← hXu u]
      exact hcase
  · left
    rw [increaseTrustScore_other _ _ _ hu, hXu u]

/-- Trust-score effect of the final `_decreaseTrustScore` call of a default. -/
theorem decrease_core (s0 X : State) (b : Nat) (s' : State)
    (h : decreaseTrustScore X b = s')
    (hXu : ∀ v, (X.userProfiles v).trustScore = (s0.userProfiles v).trustScore)
    (u : Nat) :
    (s'.userProfiles u).trustScore = (s0.userProfiles u).trustScore ∨
    (0 < (s'.userProfiles u).trustScore ∧
      (s'.userProfiles u).trustScore ≤ (s0.userProfiles u).trustScore) ∨
    (s'.userProfiles u).trustScore = INITIAL_TRUST_SCORE / 2 := by
  subst h
  by_cases hu : u = b
  · subst hu
    have hd := decreaseTrustScore_eq X u
    rw [hXu u] at hd
    by_cases hgt : (s0.userProfiles u).trustScore >
        X.TRUST_DECREASE_ON_DEFAULT + (if (X.userProfiles u).defaults > 1 then 100 else 0)
    · rw [if_pos hgt] at hd
      right; left
      omega
    · rw [if_neg hgt] at hd
      right; right
      exact hd
  · left
    rw [decreaseTrustScore_other _ _ _ hu, hXu u]

theorem repayLoan_some (s : State) (now sender : Nat) (s' : State)
    (h : repayLoan s now sender = some s') :
    (s.activeLoans sender).principal ≤ s.totalActiveLoans ∧
    s'.totalActiveLoans = s.totalActiveLoans - (s.activeLoans sender).principal ∧
    s'.totalInterestPool = s.totalInterestPool + (s.activeLoans sender).interestAmount ∧
    s'.totalPoolLiquidity = s.totalPoolLiquidity ∧
    s'.totalLenderDeposits = s.totalLenderDeposits ∧
    s'.totalDefaultedAmount = s.totalDefaultedAmount ∧
    ∀ u, (s'.userProfiles u).trustScore = (s.userProfiles u).trustScore ∨
      (s'.userProfiles u).trustScore = MAX_TRUST_SCORE ∨
      ((s.userProfiles u).trustScore ≤ (s'.userProfiles u).trustScore ∧
        (s'.userProfiles u).trustScore ≤ MAX_TRUST_SCORE) := by
  by_cases hp : s.paused
  · simp [repayLoan, hp] at h
  · by_cases hc : (s.userProfiles sender).hasActiveLoan = true ∧
        (s.activeLoans sender).status = LoanStatus.ACTIVE ∧
        (s.activeLoans sender).principal ≤ s.totalActiveLoans
    · simp [repayLoan, hp, hc] at h
      refine ⟨hc.2.2, ?_, ?_, ?_, ?_, ?_, fun u => ?_⟩
      · rw [← h]; simp
      · rw [← h]; simp
      · rw [← h]; simp
      · rw [← h]; simp
      · rw [← h]; simp
      · refine increase_core s _ sender s' h (fun v => ?_) u
        by_cases hv : v = sender
        · subst hv; simp
        · simp [hv]
    · simp [repayLoan, hp, hc] at h

theorem markDefault_some (s : State) (now borrower : Nat) (s' : State)
    (h : markDefault s now borrower = some s') :
    (s.userProfiles borrower).hasActiveLoan = true ∧
    (s.activeLoans borrower).status = LoanStatus.ACTIVE ∧
    now > (s.activeLoans borrower).dueDate ∧
    (s.activeLoans borrower).principal ≤ s.totalActiveLoans ∧
    (s.activeLoans borrower).principal ≤ s.totalPoolLiquidity ∧
    s'.totalActiveLoans = s.totalActiveLoans - (s.activeLoans borrower).principal ∧
    s'.totalPoolLiquidity = s.totalPoolLiquidity - (s.activeLoans borrower).principal ∧
    s'.totalDefaultedAmount = s.totalDefaultedAmount + (s.activeLoans borrower).principal ∧
    s'.totalInterestPool = s.totalInterestPool ∧
    s'.totalLenderDeposits = s.totalLenderDeposits ∧
    (s'.userProfiles borrower).trustScore =
      (if (s.userProfiles borrower).trustScore >
            s.TRUST_DECREASE_ON_DEFAULT +
              (if (s.userProfiles borrower).defaults + 1 > 1 then 100 else 0)
        then (s.userProfiles borrower).trustScore -
            (s.TRUST_DECREASE_ON_DEFAULT +
              (if (s.userProfiles borrower).defaults + 1 > 1 then 100 else 0))
        else INITIAL_TRUST_SCORE / 2) ∧
    ∀ u, (s'.userProfiles u).trustScore = (s.userProfiles u).trustScore ∨
      (0 < (s'.userProfiles u).trustScore ∧
        (s'.userProfiles u).trustScore ≤ (s.userProfiles u).trustScore) ∨
      (s'.userProfiles u).trustScore = INITIAL_TRUST_SCORE / 2 := by
  by_cases hc : (s.userProfiles borrower).hasActiveLoan = true ∧
      (s.activeLoans borrower).status = LoanStatus.ACTIVE ∧
      now > (s.activeLoans borrower).dueDate ∧
      (s.activeLoans borrower).principal ≤ s.totalActiveLoans ∧
      (s.activeLoans borrower).principal ≤ s.totalPoolLiquidity
  · simp [markDefault, hc] at h
    obtain ⟨c1, c2, c3, c4, c5⟩ := hc
    refine ⟨c1, c2, c3, c4, c5, ?_, ?_, ?_, ?_, ?_, ?_, fun u => ?_⟩
    · rw [← h]; simp
    · rw [← h]; simp
    · rw [← h]; simp
    · rw [← h]; simp
    · rw [← h]; simp
    · rw [← h, decreaseTrustScore_eq]
      simp
    · refine decrease_core s _ borrower s' h (fun v => ?_) u
      by_cases hv : v = borrower
      · subst hv; simp
      · simp [hv]
  · simp [markDefault, hc] at h

theorem vouchForUser_some (s : State) (now sender vouchee : Nat) (s' : State)
    (h : vouchForUser s now sender vouchee = some s') :
    s'.totalPoolLiquidity = s.totalPoolLiquidity ∧
    s'.totalActiveLoans = s.totalActiveLoans ∧
    s'.totalDefaultedAmount = s.totalDefaultedAmount ∧
    s'.totalInterestPool = s.totalInterestPool ∧
    s'.totalLenderDeposits = s.totalLenderDeposits ∧
    s'.vouches sender vouchee = true ∧
    (∀ now2, vouchForUser s' now2 sender vouchee = none) ∧
    ((s.userProfiles vouchee).trustScore = 0 →
      (s'.userProfiles vouchee).trustScore = INITIAL_TRUST_SCORE + 50) ∧
    ((s.userProfiles vouchee).trustScore ≠ 0 → (s.userProfiles vouchee).trustScore < 300 →
      (s'.userProfiles vouchee).trustScore = (s.userProfiles vouchee).trustScore + 30) ∧
    (300 ≤ (s.userProfiles vouchee).trustScore →
      (s'.userProfiles vouchee).trustScore = (s.userProfiles vouchee).trustScore) ∧
    ∀ u, (s'.userProfiles u).trustScore = (s.userProfiles u).trustScore ∨
      ((s.userProfiles u).trustScore = 0 ∧
        (s'.userProfiles u).trustScore = INITIAL_TRUST_SCORE + 50) ∨
      ((s.userProfiles u).trustScore < 300 ∧
        (s'.userProfiles u).trustScore = (s.userProfiles u).trustScore + 30) := by
  by_cases hg : (s.userProfiles sender).trustScore ≥ 500 ∧
      (s.userProfiles sender).successfulRepayments ≥ 2 ∧
      s.vouches sender vouchee = false ∧ vouchee ≠ sender
  · by_cases h0 : (s.userProfiles vouchee).trustScore = 0
    · simp [vouchForUser, hg, h0] at h
      subst h
      refine ⟨rfl, rfl, rfl, rfl, rfl, by simp, fun now2 => by simp [vouchForUser],
        fun _ => by simp, fun hne _ => absurd h0 hne, fun h300 => by omega,
        fun u => ?_⟩
      by_cases hu : u = vouchee
      · subst hu
        right; left
        exact ⟨h0, by simp⟩
      · left
        simp [hu]
    · by_cases h300 : (s.userProfiles vouchee).trustScore < 300
      · simp [vouchForUser, hg, h0, h300] at h
        subst h
        refine ⟨rfl, rfl, rfl, rfl, rfl, by simp, fun now2 => by simp [vouchForUser],
          fun he => absurd he h0, fun _ _ => by simp, fun hge => by omega,
          fun u => ?_⟩
        by_cases hu : u = vouchee
        · subst hu
          right; right
          exact ⟨h300, by simp⟩
        · left
          simp [hu]
      · simp [vouchForUser, hg, h0, h300] at h
        subst h
        refine ⟨rfl, rfl, rfl, rfl, rfl, by simp, fun now2 => by simp [vouchForUser],
          fun he => absurd he h0, fun _ hlt => absurd hlt h300, fun _ => by simp,
          fun u => ?_⟩
        left
        simp
  · simp [vouchForUser, hg] at h

theorem updateTrustParameters_some (s : State) (inc dec : Nat) (s' : State)
    (h : updateTrustParameters s inc dec = some s') :
    s'.totalPoolLiquidity = s.totalPoolLiquidity ∧
    s'.totalActiveLoans = s.totalActiveLoans ∧
    s'.totalDefaultedAmount = s.totalDefaultedAmount ∧
    s'.totalInterestPool = s.totalInterestPool ∧
    s'.totalLenderDeposits = s.totalLenderDeposits ∧
    ∀ u, s'.userProfiles u = s.userProfiles u := by
  by_cases hc : 0 < inc ∧ inc ≤ 100 ∧ 0 < dec ∧ dec ≤ 500
  · simp [updateTrustParameters, hc] at h
    subst h
    exact ⟨rfl, rfl, rfl, rfl, rfl, fun u => rfl⟩
  · simp [updateTrustParameters, hc] at h

theorem updateInterestRates_some (s : State) (baseRate maxRate : Nat) (s' : State)
    (h : updateInterestRates s baseRate maxRate = some s') :
    s'.totalPoolLiquidity = s.totalPoolLiquidity ∧
    s'.totalActiveLoans = s.totalActiveLoans ∧
    s'.totalDefaultedAmount = s.totalDefaultedAmount ∧
    s'.totalInterestPool = s.totalInterestPool ∧
    s'.totalLenderDeposits = s.totalLenderDeposits ∧
    ∀ u, s'.userProfiles u = s.userProfiles u := by
  by_cases hc : baseRate < maxRate ∧ maxRate ≤ 5000
  · simp [updateInterestRates, hc] at h
    subst h
    exact ⟨rfl, rfl, rfl, rfl, rfl, fun u => rfl⟩
  · simp [updateInterestRates, hc] at h

theorem updateBorrowingLimits_some (s : State) (low med high : Nat) (s' : State)
    (h : updateBorrowingLimits s low med high = some s') :
    s'.totalPoolLiquidity = s.totalPoolLiquidity ∧
    s'.totalActiveLoans = s.totalActiveLoans ∧
    s'.totalDefaultedAmount = s.totalDefaultedAmount ∧
    s'.totalInterestPool = s.totalInterestPool ∧
    s'.totalLenderDeposits = s.totalLenderDeposits ∧
    ∀ u, s'.userProfiles u = s.userProfiles u := by
  by_cases hc : low < med ∧ med < high
  · simp [updateBorrowingLimits, hc] at h
    subst h
    exact ⟨rfl, rfl, rfl, rfl, rfl, fun u => rfl⟩
  · simp [updateBorrowingLimits, hc] at h

theorem updateLoanDurationLimits_some (s : State) (minDuration maxDuration : Nat) (s' : State)
    (h : updateLoanDurationLimits s minDuration maxDuration = some s') :
    s'.totalPoolLiquidity = s.totalPoolLiquidity ∧
    s'.totalActiveLoans = s.totalActiveLoans ∧
    s'.totalDefaultedAmount = s.totalDefaultedAmount ∧
    s'.totalInterestPool = s.totalInterestPool ∧
    s'.totalLenderDeposits = s.totalLenderDeposits ∧
    ∀ u, s'.userProfiles u = s.userProfiles u := by
  by_cases hc : minDuration ≥ oneDay ∧ maxDuration ≤ 365 * oneDay ∧ minDuration < maxDuration
  · simp [updateLoanDurationLimits, hc] at h
    subst h
    exact ⟨rfl, rfl, rfl, rfl, rfl, fun u => rfl⟩
  · simp [updateLoanDurationLimits, hc] at h

theorem updateDefaultCooldown_some (s : State) (newPeriod : Nat) (s' : State)
    (h : updateDefaultCooldown s newPeriod = some s') :
    s'.totalPoolLiquidity = s.totalPoolLiquidity ∧
    s'.totalActiveLoans = s.totalActiveLoans ∧
    s'.totalDefaultedAmount = s.totalDefaultedAmount ∧
    s'.totalInterestPool = s.totalInterestPool ∧
    s'.totalLenderDeposits = s.totalLenderDeposits ∧
    ∀ u, s'.userProfiles u = s.userProfiles u := by
  by_cases hc : 7 * oneDay ≤ newPeriod ∧ newPeriod ≤ 180 * oneDay
  · simp [updateDefaultCooldown, hc] at h
    subst h
    exact ⟨rfl, rfl, rfl, rfl, rfl, fun u => rfl⟩
  · simp [updateDefaultCooldown, hc] at h

theorem pauseOp_some (s : State) (s' : State) (h : pauseOp s = some s') :
    s'.totalPoolLiquidity = s.totalPoolLiquidity ∧
    s'.totalActiveLoans = s.totalActiveLoans ∧
    s'.totalDefaultedAmount = s.totalDefaultedAmount ∧
    s'.totalInterestPool = s.totalInterestPool ∧
    s'.totalLenderDeposits = s.totalLenderDeposits ∧
    ∀ u, s'.userProfiles u = s.userProfiles u := by
  by_cases hc : s.paused
  · simp [pauseOp, hc] at h
  · simp [pauseOp, hc] at h
    subst h
    exact ⟨rfl, rfl, rfl, rfl, rfl, fun u => rfl⟩

theorem unpauseOp_some (s : State) (s' : State) (h : unpauseOp s = some s') :
    s'.totalPoolLiquidity = s.totalPoolLiquidity ∧
    s'.totalActiveLoans = s.totalActiveLoans ∧
    s'.totalDefaultedAmount = s.totalDefaultedAmount ∧
    s'.totalInterestPool = s.totalInterestPool ∧
    s'.totalLenderDeposits = s.totalLenderDeposits ∧
    ∀ u, s'.userProfiles u = s.userProfiles u := by
  by_cases hc : s.paused
  · simp [unpauseOp, hc] at h
    subst h
    exact ⟨rfl, rfl, rfl, rfl, rfl, fun u => rfl⟩
  · simp [unpauseOp, hc] at h

/-! ### Invariant preservation over `step` and `run`. -/

/-- Conservation invariant: one step preserves
`totalPoolLiquidity + totalDefaultedAmount = totalLenderDeposits`. -/
theorem step_cons (s : State) (op : Op) (s' : State) (h : step s op = some s')
    (hs : s.totalPoolLiquidity + s.totalDefaultedAmount = s.totalLenderDeposits) :
    s'.totalPoolLiquidity + s'.totalDefaultedAmount = s'.totalLenderDeposits := by
  cases op with
  | depositToPool now sender amount =>
    obtain ⟨e1, e2, e3, -⟩ := depositToPool_some _ _ _ _ _ h
    omega
  | withdrawFromPool now sender amount =>
    obtain ⟨b1, b2, e1, e2, e3, -⟩ := withdrawFromPool_some _ _ _ _ _ h
    omega
  | claimInterest now sender =>
    obtain ⟨-, -, e1, e2, e3, -⟩ := claimInterest_some _ _ _ _ h
    omega
  | requestLoan now sender amount duration =>
    obtain ⟨-, e1, e2, -, e3, -⟩ := requestLoan_some _ _ _ _ _ _ h
    omega
  | repayLoan now sender =>
    obtain ⟨-, -, -, e1, e2, e3, -⟩ := repayLoan_some _ _ _ _ h
    omega
  | markDefault now borrower =>
    obtain ⟨-, -, -, b1, b2, -, e1, e2, -, e3, -⟩ := markDefault_some _ _ _ _ h
    omega
  | vouchForUser now sender vouchee =>
    obtain ⟨e1, -, e2, -, e3, -⟩ := vouchForUser_some _ _ _ _ _ h
    omega
  | updateTrustParameters inc dec =>
    obtain ⟨e1, -, e2, -, e3, -⟩ := updateTrustParameters_some _ _ _ _ h
    omega
  | updateInterestRates baseRate maxRate =>
    obtain ⟨e1, -, e2, -, e3, -⟩ := updateInterestRates_some _ _ _ _ h
    omega
  | updateBorrowingLimits low med high =>
    obtain ⟨e1, -, e2, -, e3, -⟩ := updateBorrowingLimits_some _ _ _ _ _ h
    omega
  | updateLoanDurationLimits minDuration maxDuration =>
    obtain ⟨e1, -, e2, -, e3, -⟩ := updateLoanDurationLimits_some _ _ _ _ h
    omega
  | updateDefaultCooldown newPeriod =>
    obtain ⟨e1, -, e2, -, e3, -⟩ := updateDefaultCooldown_some _ _ _ h
    omega
  | pause =>
    obtain ⟨e1, -, e2, -, e3, -⟩ := pauseOp_some _ _ h
    omega
  | unpause =>
    obtain ⟨e1, -, e2, -, e3, -⟩ := unpauseOp_some _ _ h
    omega

/-- Trust upper bound: one step keeps every score at or below
`MAX_TRUST_SCORE`. -/
theorem step_trust_le (s : State) (op : Op) (s' : State) (h : step s op = some s')
    (hs : ∀ u, (s.userProfiles u).trustScore ≤ MAX_TRUST_SCORE) :
    ∀ u, (s'.userProfiles u).trustScore ≤ MAX_TRUST_SCORE := by
  have hM : MAX_TRUST_SCORE = 1000 := rfl
  have hI : INITIAL_TRUST_SCORE = 100 := rfl
  intro u
  have hu := hs u
  cases op with
  | depositToPool now sender amount =>
    rw [(depositToPool_some _ _ _ _ _ h).2.2.2.2.2 u]; omega
  | withdrawFromPool now sender amount =>
    rw [(withdrawFromPool_some _ _ _ _ _ h).2.2.2.2.2.2.2 u]; omega
  | claimInterest now sender =>
    rw [(claimInterest_some _ _ _ _ h).2.2.2.2.2.2 u]; omega
  | requestLoan now sender amount duration =>
    rcases (requestLoan_some _ _ _ _ _ _ h).2.2.2.2.2.1 u with he | ⟨-, he⟩ <;> omega
  | repayLoan now sender =>
    rcases (repayLoan_some _ _ _ _ h).2.2.2.2.2.2 u with he | he | ⟨h1, h2⟩ <;> omega
  | markDefault now borrower =>
    rcases (markDefault_some _ _ _ _ h).2.2.2.2.2.2.2.2.2.2.2 u with he | ⟨h1, h2⟩ | he <;> omega
  | vouchForUser now sender vouchee =>
    rcases (vouchForUser_some _ _ _ _ _ h).2.2.2.2.2.2.2.2.2.2 u with he | ⟨h1, h2⟩ | ⟨h1, h2⟩ <;>
      omega
  | updateTrustParameters inc dec =>
    rw [(updateTrustParameters_some _ _ _ _ h).2.2.2.2.2 u]; omega
  | updateInterestRates baseRate maxRate =>
    rw [(updateInterestRates_some _ _ _ _ h).2.2.2.2.2 u]; omega
  | updateBorrowingLimits low med high =>
    rw [(updateBorrowingLimits_some _ _ _ _ _ h).2.2.2.2.2 u]; omega
  | updateLoanDurationLimits minDuration maxDuration =>
    rw [(updateLoanDurationLimits_some _ _ _ _ h).2.2.2.2.2 u]; omega
  | updateDefaultCooldown newPeriod =>
    rw [(updateDefaultCooldown_some _ _ _ h).2.2.2.2.2 u]; omega
  | pause =>
    rw [(pauseOp_some _ _ h).2.2.2.2.2 u]; omega
  | unpause =>
    rw [(unpauseOp_some _ _ h).2.2.2.2.2 u]; omega

/-- Nonzero trust is preserved by every step. -/
theorem step_trust_ne (s : State) (op : Op) (s' : State) (h : step s op = some s')
    (u : Nat) (hu : (s.userProfiles u).trustScore ≠ 0) :
    (s'.userProfiles u).trustScore ≠ 0 := by
  have hM : MAX_TRUST_SCORE = 1000 := rfl
  have hI : INITIAL_TRUST_SCORE = 100 := rfl
  cases op with
  | depositToPool now sender amount =>
    rw [(depositToPool_some _ _ _ _ _ h).2.2.2.2.2 u]; omega
  | withdrawFromPool now sender amount =>
    rw [(withdrawFromPool_some _ _ _ _ _ h).2.2.2.2.2.2.2 u]; omega
  | claimInterest now sender =>
    rw [(claimInterest_some _ _ _ _ h).2.2.2.2.2.2 u]; omega
  | requestLoan now sender amount duration =>
    rcases (requestLoan_some _ _ _ _ _ _ h).2.2.2.2.2.1 u with he | ⟨h0, -⟩
    · omega
    · omega
  | repayLoan now sender =>
    rcases (repayLoan_some _ _ _ _ h).2.2.2.2.2.2 u with he | he | ⟨h1, h2⟩ <;> omega
  | markDefault now borrower =>
    rcases (markDefault_some _ _ _ _ h).2.2.2.2.2.2.2.2.2.2.2 u with he | ⟨h1, h2⟩ | he <;> omega
  | vouchForUser now sender vouchee =>
    rcases (vouchForUser_some _ _ _ _ _ h).2.2.2.2.2.2.2.2.2.2 u with he | ⟨h1, h2⟩ | ⟨h1, h2⟩ <;>
      omega
  | updateTrustParameters inc dec =>
    rw [(updateTrustParameters_some _ _ _ _ h).2.2.2.2.2 u]; omega
  | updateInterestRates baseRate maxRate =>
    rw [(updateInterestRates_some _ _ _ _ h).2.2.2.2.2 u]; omega
  | updateBorrowingLimits low med high =>
    rw [(updateBorrowingLimits_some _ _ _ _ _ h).2.2.2.2.2 u]; omega
  | updateLoanDurationLimits minDuration maxDuration =>
    rw [(updateLoanDurationLimits_some _ _ _ _ h).2.2.2.2.2 u]; omega
  | updateDefaultCooldown newPeriod =>
    rw [(updateDefaultCooldown_some _ _ _ h).2.2.2.2.2 u]; omega
  | pause =>
    rw [(pauseOp_some _ _ h).2.2.2.2.2 u]; omega
  | unpause =>
    rw [(unpauseOp_some _ _ h).2.2.2.2.2 u]; omega

/-- An invariant preserved by every step holds after every successful run. -/
theorem run_preserves (P : State → Prop)
    (hstep : ∀ s op s', step s op = some s' → P s → P s') :
    ∀ ops s s', run s ops = some s' → P s → P s' := by
  intro ops
  induction ops with
  | nil =>
    intro s s' h hp
    simp only [run, Option.some.injEq] at h
    exact h ▸ hp
  | cons op ops ih =>
    intro s s' h hp
    simp only [run] at h
    cases h2 : step s op with
    | none => rw [h2] at h; simp at h
    | some s2 =>
      rw [h2] at h
      exact ih s2 s' h (hstep s op s2 h2 hp)

/-! ### The claims. -/

/-- C4: for every trust score, maturity tier and pool state, the rate used at
issuance equals base rate + trust penalty (700 bp below 300, 300 bp below 600)
+ maturity penalty (500 bp at tier 0, 200 bp at tier 1) + 2 bp per whole
percent of utilization (0 when the pool is empty), clamped from above at
`MAX_INTEREST_RATE`. -/
theorem C4_interest_rate_formula (s : State) (t m : Nat) :
    calculateInterestRate s t m =
      specInterestRate s.BASE_INTEREST_RATE s.MAX_INTEREST_RATE
        s.totalActiveLoans s.totalPoolLiquidity t m := by
  simp only [calculateInterestRate, specInterestRate, trustPenalty, maturityPenalty,
    utilizationPercent]
  rw [Nat.min_def]
  generalize s.totalActiveLoans * 100 / s.totalPoolLiquidity = q
  split_ifs <;> omega

/-- C6: with strictly increasing tier limits, the computed borrowing limit is
monotone in the trust score for any fixed maturity multiplier. -/
theorem C6_limit_monotone (s : State) (mult t1 t2 : Nat)
    (h1 : s.LOW_TRUST_LIMIT < s.MED_TRUST_LIMIT)
    (h2 : s.MED_TRUST_LIMIT < s.HIGH_TRUST_LIMIT)
    (ht : t1 ≤ t2) :
    calculateBorrowingLimit s t1 mult ≤ calculateBorrowingLimit s t2 mult := by
  simp only [calculateBorrowingLimit]
  have hb : (if t1 < 300 then s.LOW_TRUST_LIMIT
        else if t1 < 600 then s.MED_TRUST_LIMIT else s.HIGH_TRUST_LIMIT) ≤
      (if t2 < 300 then s.LOW_TRUST_LIMIT
        else if t2 < 600 then s.MED_TRUST_LIMIT else s.HIGH_TRUST_LIMIT) := by
    split_ifs <;> omega
  exact Nat.div_le_div_right (Nat.mul_le_mul_right mult hb)

theorem C6_limit_monotone_witness :
    calculateBorrowingLimit initialState 100 100 ≤ calculateBorrowingLimit initialState 700 100 :=
  C6_limit_monotone initialState 100 100 700 (by decide) (by decide) (by decide)

/-- C1: fund conservation.  After every successful operation sequence from the
freshly constructed state, `totalPoolLiquidity = totalLenderDeposits −
totalDefaultedAmount`; repayment moves the principal out of
`totalActiveLoans` and the interest into `totalInterestPool` without touching
`totalLenderDeposits`; a default subtracts the lost principal from
`totalPoolLiquidity` and adds it to `totalDefaultedAmount`. -/
theorem C1_fund_conservation :
    (∀ ops s, run initialState ops = some s →
      s.totalPoolLiquidity = s.totalLenderDeposits - s.totalDefaultedAmount) ∧
    (∀ s now sender s', repayLoan s now sender = some s' →
      s'.totalActiveLoans = s.totalActiveLoans - (s.activeLoans sender).principal ∧
      s'.totalInterestPool = s.totalInterestPool + (s.activeLoans sender).interestAmount ∧
      s'.totalLenderDeposits = s.totalLenderDeposits) ∧
    (∀ s now borrower s', markDefault s now borrower = some s' →
      s'.totalPoolLiquidity = s.totalPoolLiquidity - (s.activeLoans borrower).principal ∧
      s'.totalDefaultedAmount = s.totalDefaultedAmount + (s.activeLoans borrower).principal) := by
  refine ⟨fun ops s h => ?_, fun s now sender s' h => ?_, fun s now borrower s' h => ?_⟩
  · have hinv := run_preserves
      (fun t => t.totalPoolLiquidity + t.totalDefaultedAmount = t.totalLenderDeposits)
      step_cons ops initialState s h rfl
    omega
  · obtain ⟨-, e1, e2, -, e3, -⟩ := repayLoan_some _ _ _ _ h
    exact ⟨e1, e2, e3⟩
  · obtain ⟨-, -, -, -, -, -, e1, e2, -⟩ := markDefault_some _ _ _ _ h
    exact ⟨e1, e2⟩

theorem C1_fund_conservation_witness :
    ((run initialState wOps).getD initialState).totalPoolLiquidity =
      ((run initialState wOps).getD initialState).totalLenderDeposits -
        ((run initialState wOps).getD initialState).totalDefaultedAmount ∧
    ((repayLoan wActiveState 10 7).getD initialState).totalLenderDeposits =
      wActiveState.totalLenderDeposits ∧
    ((markDefault wActiveState 100 7).getD initialState).totalDefaultedAmount =
      wActiveState.totalDefaultedAmount + (wActiveState.activeLoans 7).principal :=
  ⟨C1_fund_conservation.1 wOps _ rfl,
    (C1_fund_conservation.2.1 wActiveState 10 7 _ rfl).2.2,
    (C1_fund_conservation.2.2 wActiveState 100 7 _ rfl).2⟩

/-- C2: trust-score bounds.  In every state reachable from the freshly
constructed state, every user's trust score lies in `[0, MAX_TRUST_SCORE]`. -/
theorem C2_trust_score_bounds (ops : List Op) (s : State)
    (h : run initialState ops = some s) (u : Nat) :
    0 ≤ (s.userProfiles u).trustScore ∧
    (s.userProfiles u).trustScore ≤ MAX_TRUST_SCORE :=
  ⟨Nat.zero_le _,
    run_preserves (fun t => ∀ v, (t.userProfiles v).trustScore ≤ MAX_TRUST_SCORE)
      step_trust_le ops initialState s h (fun _ => Nat.zero_le _) u⟩

theorem C2_trust_score_bounds_witness :
    0 ≤ (((run initialState wOps).getD initialState).userProfiles 1).trustScore ∧
    (((run initialState wOps).getD initialState).userProfiles 1).trustScore ≤
      MAX_TRUST_SCORE :=
  C2_trust_score_bounds wOps _ rfl 1

/-- C10: once nonzero, a trust score is never returned to zero by any
operation; in particular `requestLoan`'s lazy initialization leaves a nonzero
score unchanged, so it can never re-grant the initial score to a user whose
score was reduced by defaults. -/
theorem C10_trust_never_rezeroed :
    (∀ s op s' u, step s op = some s' → (s.userProfiles u).trustScore ≠ 0 →
      (s'.userProfiles u).trustScore ≠ 0) ∧
    (∀ s now sender amount duration s',
      requestLoan s now sender amount duration = some s' →
      (s.userProfiles sender).trustScore ≠ 0 →
      (s'.userProfiles sender).trustScore = (s.userProfiles sender).trustScore) := by
  refine ⟨fun s op s' u h hu => step_trust_ne s op s' h u hu,
    fun s now sender amount duration s' h hne => ?_⟩
  rcases (requestLoan_some _ _ _ _ _ _ h).2.2.2.2.2.1 sender with he | ⟨h0, -⟩
  · exact he
  · exact absurd h0 hne

theorem C10_trust_never_rezeroed_witness :
    (((repayLoan wActiveState 10 7).getD initialState).userProfiles 7).trustScore ≠ 0 ∧
    (((requestLoan wRequestState2 wRequestTime 3 (10 ^ 16) (30 * 86400)).getD
        initialState).userProfiles 3).trustScore =
      (wRequestState2.userProfiles 3).trustScore :=
  ⟨C10_trust_never_rezeroed.1 wActiveState (Op.repayLoan 10 7) _ 7 rfl (by decide),
    C10_trust_never_rezeroed.2 wRequestState2 wRequestTime 3 (10 ^ 16) (30 * 86400) _ (by rfl)
      (by decide)⟩

/-- C3: whenever `requestLoan` succeeds with amount `a` and duration `d`, the
stored loan has `interestAmount = a * rate * d / (10000 * 365 days)` with
truncating division — `rate` being the interest-rate computation at issuance
time on the (lazily initialized) trust score and the maturity tier —
`totalRepayment = a + interestAmount`, and status ACTIVE. -/
theorem C3_interest_on_issuance (s : State) (now sender amount duration : Nat)
    (s' : State) (mat : WalletMaturity)
    (h : requestLoan s now sender amount duration = some s')
    (hm : getWalletMaturity s now sender = some mat) :
    (s'.activeLoans sender).interestAmount =
      amount * calculateInterestRate s
        (if (s.userProfiles sender).trustScore = 0 then INITIAL_TRUST_SCORE
          else (s.userProfiles sender).trustScore) mat.maturityLevel * duration /
        (10000 * oneYear) ∧
    (s'.activeLoans sender).totalRepayment = amount + (s'.activeLoans sender).interestAmount ∧
    (s'.activeLoans sender).status = LoanStatus.ACTIVE :=
  (requestLoan_some s now sender amount duration s' h).2.2.2.2.2.2 mat hm

theorem C3_interest_on_issuance_witness :
    (((requestLoan wRequestState wRequestTime 3 (10 ^ 16) (30 * 86400)).getD
        initialState).activeLoans 3).interestAmount =
      10 ^ 16 * calculateInterestRate wRequestState
        (if (wRequestState.userProfiles 3).trustScore = 0 then INITIAL_TRUST_SCORE
          else (wRequestState.userProfiles 3).trustScore) wRequestMaturity.maturityLevel *
        (30 * 86400) / (10000 * oneYear) ∧
    (((requestLoan wRequestState wRequestTime 3 (10 ^ 16) (30 * 86400)).getD
        initialState).activeLoans 3).status = LoanStatus.ACTIVE := by
  have hfull := C3_interest_on_issuance wRequestState wRequestTime 3 (10 ^ 16)
    (30 * 86400) _ wRequestMaturity (by rfl) (by rfl)
  exact ⟨hfull.1, hfull.2.2⟩

/-- C5: on a successful `markDefault`, the borrower's new trust score is the
old score minus `TRUST_DECREASE_ON_DEFAULT` (plus 100 when this is not the
first default, i.e. `defaults > 1` after the increment) if the old score
exceeds that penalty, and `INITIAL_TRUST_SCORE / 2` otherwise. -/
theorem C5_trust_decrease_on_default (s : State) (now borrower : Nat) (s' : State)
    (h : markDefault s now borrower = some s') :
    (s'.userProfiles borrower).trustScore =
      (if (s.userProfiles borrower).trustScore >
            s.TRUST_DECREASE_ON_DEFAULT +
              (if (s.userProfiles borrower).defaults + 1 > 1 then 100 else 0)
        then (s.userProfiles borrower).trustScore -
            (s.TRUST_DECREASE_ON_DEFAULT +
              (if (s.userProfiles borrower).defaults + 1 > 1 then 100 else 0))
        else INITIAL_TRUST_SCORE / 2) := by
  obtain ⟨-, -, -, -, -, -, -, -, -, -, hb, -⟩ := markDefault_some _ _ _ _ h
  exact hb

theorem C5_trust_decrease_on_default_witness :
    (((markDefault wActiveState 100 7).getD initialState).userProfiles 7).trustScore =
      (if (wActiveState.userProfiles 7).trustScore >
            wActiveState.TRUST_DECREASE_ON_DEFAULT +
              (if (wActiveState.userProfiles 7).defaults + 1 > 1 then 100 else 0)
        then (wActiveState.userProfiles 7).trustScore -
            (wActiveState.TRUST_DECREASE_ON_DEFAULT +
              (if (wActiveState.userProfiles 7).defaults + 1 > 1 then 100 else 0))
        else INITIAL_TRUST_SCORE / 2) :=
  C5_trust_decrease_on_default wActiveState 100 7 _ (by rfl)

/-- C7 counterexample: with `min = max = 1 day` the claim's stated success
condition (`min ≥ 1 day`, `min ≤ max`, `max ≤ 365 days`) holds, yet
`updateLoanDurationLimits` rejects, because the code requires strictly
`min < max`. -/
theorem C7_counterexample :
    (oneDay ≤ oneDay ∧ oneDay ≤ oneDay ∧ oneDay ≤ 365 * oneDay) ∧
    updateLoanDurationLimits initialState oneDay oneDay = none :=
  ⟨⟨Nat.le_refl _, Nat.le_refl _, by decide⟩, by rfl⟩

/-- C7 (amended): `updateLoanDurationLimits(min, max)` succeeds exactly when
`min ≥ 1 day`, `min < max` (strictly), and `max ≤ 365 days`; on success the
two parameters are set, and on rejection the operation fails with no state
change. -/
theorem C7_duration_governance (s : State) (minDuration maxDuration : Nat) :
    ((updateLoanDurationLimits s minDuration maxDuration).isSome ↔
      (oneDay ≤ minDuration ∧ minDuration < maxDuration ∧ maxDuration ≤ 365 * oneDay)) ∧
    ∀ s', updateLoanDurationLimits s minDuration maxDuration = some s' →
      s'.MIN_LOAN_DURATION = minDuration ∧ s'.MAX_LOAN_DURATION = maxDuration := by
  constructor
  · constructor
    · intro hs
      unfold updateLoanDurationLimits at hs
      split_ifs at hs with hcc
      · exact ⟨hcc.1, hcc.2.2, hcc.2.1⟩
      · simp at hs
    · intro hcon
      unfold updateLoanDurationLimits
      rw [if_pos ⟨hcon.1, hcon.2.2, hcon.2.1⟩]
      rfl
  · intro s' h
    unfold updateLoanDurationLimits at h
    split_ifs at h with hcc
    · injection h with h
      subst h
      exact ⟨rfl, rfl⟩

theorem C7_duration_governance_witness :
    ((updateLoanDurationLimits initialState oneDay (2 * oneDay)).getD
        initialState).MIN_LOAN_DURATION = oneDay ∧
    ((updateLoanDurationLimits initialState oneDay (2 * oneDay)).getD
        initialState).MAX_LOAN_DURATION = 2 * oneDay :=
  (C7_duration_governance initialState oneDay (2 * oneDay)).2 _ (by rfl)

/-- C8 counterexample: a vouchee with trust score 150 who has never been
tracked (`walletFirstSeen = 0`).  The claim as stated predicts the vouch sets
their score to `INITIAL_TRUST_SCORE + 50 = 150`; the code keys on
`trustScore == 0` instead and adds 30, giving 180. -/
theorem C8_counterexample :
    (wVouchState.userProfiles 4).walletFirstSeen = 0 ∧
    (vouchForUser wVouchState 100 9 4).isSome = true ∧
    (((vouchForUser wVouchState 100 9 4).getD initialState).userProfiles 4).trustScore = 180 ∧
    (180 : Nat) ≠ INITIAL_TRUST_SCORE + 50 :=
  ⟨rfl, by rfl, by rfl, by decide⟩

/-- C8 (amended): on a successful vouch, a vouchee whose trust score is zero
gets `INITIAL_TRUST_SCORE + 50`; otherwise, a score below 300 increases by
exactly 30 and a score at or above 300 is unchanged; the (voucher, vouchee)
pair is recorded permanently, so a second vouch by the same voucher for the
same vouchee always fails with no state change. -/
theorem C8_vouch_effect (s : State) (now sender vouchee : Nat) (s' : State)
    (h : vouchForUser s now sender vouchee = some s') :
    s'.vouches sender vouchee = true ∧
    (∀ now2, vouchForUser s' now2 sender vouchee = none) ∧
    ((s.userProfiles vouchee).trustScore = 0 →
      (s'.userProfiles vouchee).trustScore = INITIAL_TRUST_SCORE + 50) ∧
    ((s.userProfiles vouchee).trustScore ≠ 0 → (s.userProfiles vouchee).trustScore < 300 →
      (s'.userProfiles vouchee).trustScore = (s.userProfiles vouchee).trustScore + 30) ∧
    (300 ≤ (s.userProfiles vouchee).trustScore →
      (s'.userProfiles vouchee).trustScore = (s.userProfiles vouchee).trustScore) := by
  obtain ⟨-, -, -, -, -, hv, hnone, h1, h2, h3, -⟩ := vouchForUser_some s now sender vouchee s' h
  exact ⟨hv, hnone, h1, h2, h3⟩

theorem C8_vouch_effect_witness :
    ((vouchForUser wVouchState 100 9 4).getD initialState).vouches 9 4 = true ∧
    (((vouchForUser wVouchState 100 9 4).getD initialState).userProfiles 4).trustScore =
      (wVouchState.userProfiles 4).trustScore + 30 :=
  ⟨(C8_vouch_effect wVouchState 100 9 4 _ (by rfl)).1,
    (C8_vouch_effect wVouchState 100 9 4 _ (by rfl)).2.2.2.1 (by decide) (by decide)⟩

/-- `markDefault` never reads or writes the pause flag: with any value of the
flag it performs the same transition. -/
theorem markDefault_paused (s : State) (b : Bool) (now borrower : Nat) :
    markDefault { s with paused := b } now borrower =
      Option.map (fun t => { t with paused := b }) (markDefault s now borrower) := by
  dsimp only [markDefault]
  by_cases hc : (s.userProfiles borrower).hasActiveLoan = true ∧
      (s.activeLoans borrower).status = LoanStatus.ACTIVE ∧
      now > (s.activeLoans borrower).dueDate ∧
      (s.activeLoans borrower).principal ≤ s.totalActiveLoans ∧
      (s.activeLoans borrower).principal ≤ s.totalPoolLiquidity
  · rw [if_pos hc, if_pos hc, Option.map_some']
    rw [Option.some_inj]
    simp only [decreaseTrustScore, setProfile_self, setProfile_TRUST_DECREASE,
      setLoan_TRUST_DECREASE]
    split_ifs <;> simp [setProfile, setLoan]
  · rw [if_neg hc, if_neg hc]
    rfl

/-- C9: pause asymmetry.  When the pause flag is set, deposit, withdraw,
claim, request and repay are all rejected with no state change, while
`markDefault` ignores the flag entirely: under pause it performs exactly the
same state transition as when unpaused, and it succeeds on any ACTIVE loan
whose due date has passed (given the checked subtractions cannot underflow). -/
theorem C9_pause_asymmetry :
    (∀ (s : State) (now sender amount : Nat), s.paused = true →
      depositToPool s now sender amount = none) ∧
    (∀ (s : State) (now sender amount : Nat), s.paused = true →
      withdrawFromPool s now sender amount = none) ∧
    (∀ (s : State) (now sender : Nat), s.paused = true →
      claimInterest s now sender = none) ∧
    (∀ (s : State) (now sender amount duration : Nat), s.paused = true →
      requestLoan s now sender amount duration = none) ∧
    (∀ (s : State) (now sender : Nat), s.paused = true →
      repayLoan s now sender = none) ∧
    (∀ (s : State) (now borrower : Nat),
      markDefault { s with paused := true } now borrower =
        Option.map (fun t => { t with paused := true })
          (markDefault { s with paused := false } now borrower)) ∧
    (∀ (s : State) (now borrower : Nat),
      (s.userProfiles borrower).hasActiveLoan = true →
      (s.activeLoans borrower).status = LoanStatus.ACTIVE →
      now > (s.activeLoans borrower).dueDate →
      (s.activeLoans borrower).principal ≤ s.totalActiveLoans →
      (s.activeLoans borrower).principal ≤ s.totalPoolLiquidity →
      (markDefault s now borrower).isSome = true) := by
  refine ⟨fun s now sender amount hp => by simp [depositToPool, hp],
    fun s now sender amount hp => by simp [withdrawFromPool, hp],
    fun s now sender hp => by simp [claimInterest, hp],
    fun s now sender amount duration hp => by simp [requestLoan, hp],
    fun s now sender hp => by simp [repayLoan, hp],
    fun s now borrower => markDefault_paused { s with paused := false } true now borrower,
    fun s now borrower h1 h2 h3 h4 h5 => by simp [markDefault, h1, h2, h3, h4, h5]⟩

theorem C9_pause_asymmetry_witness :
    depositToPool wPausedState 0 1 5 = none ∧
    repayLoan wPausedState 0 1 = none ∧
    (markDefault wActiveState 100 7).isSome = true :=
  ⟨C9_pause_asymmetry.1 wPausedState 0 1 5 rfl,
    C9_pause_asymmetry.2.2.2.2.1 wPausedState 0 1 rfl,
    C9_pause_asymmetry.2.2.2.2.2.2 wActiveState 100 7 rfl rfl (by decide) (by decide)
      (by decide)⟩

end TrustForge
